import Mathlib

/-!
# Dublin Core YAML validator — formal model

Shallow embedding of `src/PROJECT/validator.py` (a Dublin Core metadata
validator built on pydantic v1) and proofs about it.

Conventions used throughout:

* Python regular expressions from the source are hand-compiled to executable
  character-list matchers.  All patterns in the source are of the form
  `^BODY$` used with `re.match`; in Python `$` matches at the end of the
  string *or just before a single final newline*, and none of the bodies can
  consume a `'\n'`, so `pyAnchored body s` below is `body s` or `body`
  applied to `s` minus one trailing newline.
* `re.IGNORECASE` is modelled by lower-casing the input (all pattern
  letters are ASCII).
* Python `\s` is modelled by its ASCII subset.  Python `\d` in a `str`
  pattern without `re.ASCII` matches every Unicode decimal digit (general
  category Nd); the ORCID matcher — the one validator whose judged property
  is an exactness statement over all strings — models this faithfully via
  the Nd table `ndRanges` (Unicode 15.0, as in CPython 3.12/3.13).  The
  other matchers (ISO dates, DOI, ISBN, ISSN, coordinates, checksum,
  timestamps) keep the ASCII subset: every judged property about them is at
  concrete ASCII inputs or does not depend on digit matching.
* pydantic v1 semantics: fields of a model are validated in declaration
  order; a `@validator('f')` receives in `values` only the fields declared
  (and validated) *before* `f`.  Where the source reads a sibling declared
  *after* the validated field (`DateElement`, `TypeElement`,
  `IdentifierElement`, `LanguageElement`), the model therefore passes
  `none` for that sibling at the call site, mirroring `values.get(...)`
  returning `None`.
* `Config.extra = "forbid"` is modelled as an allow-list check on the keys
  of each mapping.
-/

namespace DCV

/-! ## Python regex primitives -/

/-- ASCII subset of Python `\s` (whitespace class). -/
def pyIsSpace (c : Char) : Bool :=
  c = ' ' || c = '\t' || c = '\n' || c = '\r' || c = '\x0b' || c = '\x0c'

/-- `re.match` of an `^BODY$` pattern whose body cannot match `'\n'`:
Python `$` also matches just before one final newline. -/
def pyAnchored (body : List Char → Bool) (s : String) : Bool :=
  body s.data ||
    (match s.data.getLast? with
     | some c => c = '\n' && body s.data.dropLast
     | none => false)

/-- Consume exactly `n` ASCII digits, returning the rest. -/
def takeDigits : Nat → List Char → Option (List Char)
  | 0, cs => some cs
  | n + 1, c :: cs => if c.isDigit then takeDigits n cs else none
  | _ + 1, [] => none

/-- Consume one expected character. -/
def expectChar (c : Char) : List Char → Option (List Char)
  | x :: xs => if x = c then some xs else none
  | [] => none

/-- Consume a literal string of expected characters. -/
def expectLit : List Char → List Char → Option (List Char)
  | [], cs => some cs
  | l :: ls, c :: cs => if c = l then expectLit ls cs else none
  | _ :: _, [] => none

/-- All ways to consume at least one digit (`\d+`): rests after 1, 2, … leading digits. -/
def digitsPlusRests : List Char → List (List Char)
  | c :: cs => if c.isDigit then cs :: (digitsPlusRests cs).map id else []
  | [] => []

/-- All ways to consume zero or more digits (`\d*`). -/
def digitsStarRests (cs : List Char) : List (List Char) :=
  cs :: digitsPlusRests cs

/-- All ways to consume zero or more whitespace characters (`\s*`). -/
def spacesStarRests : List Char → List (List Char)
  | c :: cs => if pyIsSpace c then (c :: cs) :: spacesStarRests cs else [c :: cs]
  | [] => [[]]

/-- All ways to optionally consume one character (`c?`). -/
def optCharRests (c : Char) (cs : List Char) : List (List Char) :=
  match cs with
  | x :: xs => if x = c then [x :: xs, xs] else [x :: xs]
  | [] => [[]]

/-! ## Format validators (`validator.py`, "Validation Functions") -/

/-- `^\d{4}-\d{2}-\d{2}$` -/
def isoBodyDate (cs : List Char) : Bool :=
  (takeDigits 4 cs |>.bind (expectChar '-') |>.bind (takeDigits 2)
    |>.bind (expectChar '-') |>.bind (takeDigits 2)) = some []

/-- End of input after an optional `Z` (`Z?$`). -/
def endAfterOptZ (cs : List Char) : Bool :=
  cs = [] || cs = ['Z']

/-- `^\d{4}-\d{2}-\d{2}T\d{2}:\d{2}:\d{2}Z?$` -/
def isoBodyDateTime (cs : List Char) : Bool :=
  match takeDigits 4 cs |>.bind (expectChar '-') |>.bind (takeDigits 2)
    |>.bind (expectChar '-') |>.bind (takeDigits 2) |>.bind (expectChar 'T')
    |>.bind (takeDigits 2) |>.bind (expectChar ':') |>.bind (takeDigits 2)
    |>.bind (expectChar ':') |>.bind (takeDigits 2) with
  | some rest => endAfterOptZ rest
  | none => false

/-- `^\d{4}-\d{2}-\d{2}T\d{2}:\d{2}:\d{2}\.\d{3}Z?$` -/
def isoBodyDateTimeMs (cs : List Char) : Bool :=
  match takeDigits 4 cs |>.bind (expectChar '-') |>.bind (takeDigits 2)
    |>.bind (expectChar '-') |>.bind (takeDigits 2) |>.bind (expectChar 'T')
    |>.bind (takeDigits 2) |>.bind (expectChar ':') |>.bind (takeDigits 2)
    |>.bind (expectChar ':') |>.bind (takeDigits 2) |>.bind (expectChar '.')
    |>.bind (takeDigits 3) with
  | some rest => endAfterOptZ rest
  | none => false

/-- `^\d{4}/\d{4}$` -/
def isoBodyYearSpan (cs : List Char) : Bool :=
  (takeDigits 4 cs |>.bind (expectChar '/') |>.bind (takeDigits 4)) = some []

/-- `^\d{4}-\d{2}-\d{2}/\d{4}-\d{2}-\d{2}$` -/
def isoBodyDateRange (cs : List Char) : Bool :=
  (takeDigits 4 cs |>.bind (expectChar '-') |>.bind (takeDigits 2)
    |>.bind (expectChar '-') |>.bind (takeDigits 2) |>.bind (expectChar '/')
    |>.bind (takeDigits 4) |>.bind (expectChar '-') |>.bind (takeDigits 2)
    |>.bind (expectChar '-') |>.bind (takeDigits 2)) = some []

/-- `validate_iso8601_date`: `any(re.match(p, date_str) for p in iso8601_patterns)`. -/
def validate_iso8601_date (s : String) : Bool :=
  pyAnchored isoBodyDate s || pyAnchored isoBodyDateTime s ||
  pyAnchored isoBodyDateTimeMs s || pyAnchored isoBodyYearSpan s ||
  pyAnchored isoBodyDateRange s

/-- `10\.\d{4,}/[^\s]+` to end of input (shared tail of both DOI alternatives);
`cs` is already lower-cased (IGNORECASE). -/
def doiTail (cs : List Char) : Bool :=
  match expectLit ['1', '0', '.'] cs with
  | none => false
  | some r =>
    (digitsPlusRests r).any fun r2 =>
      match r2 with
      | [] => false
      | _ =>
        -- need ≥ 4 digits consumed before the '/'
        (r.length - r2.length ≥ 4) &&
        (match expectChar '/' r2 with
         | some r3 => r3 ≠ [] && r3.all (fun c => !pyIsSpace c)
         | none => false)

/-- First DOI alternative: `(https?://)?(dx\.)?doi\.org/10\.\d{4,}/[^\s]+`. -/
def doiWithHost (cs : List Char) : Bool :=
  let afterProto : List (List Char) :=
    [cs] ++ (expectLit "http://".data cs).toList ++ (expectLit "https://".data cs).toList
  let afterDx : List (List Char) :=
    afterProto ++ afterProto.filterMap (expectLit "dx.".data)
  afterDx.any fun r =>
    match expectLit "doi.org/".data r with
    | some r2 => doiTail r2
    | none => false

/-- `validate_doi`: `^(https?://)?(dx\.)?doi\.org/10\.\d{4,}/[^\s]+$|^10\.\d{4,}/[^\s]+$`,
`re.IGNORECASE`. -/
def validate_doi (s : String) : Bool :=
  pyAnchored (fun cs => doiWithHost (cs.map Char.toLower) || doiTail (cs.map Char.toLower)) s

/-- `validate_isbn`: strip `[-\s]`, then `^(97[89])?\d{9}[\dX]$` (no flags). -/
def validate_isbn (s : String) : Bool :=
  let clean := s.data.filter fun c => !(c = '-' || pyIsSpace c)
  let tail (cs : List Char) : Bool :=
    match takeDigits 9 cs with
    | some [c] => c.isDigit || c = 'X'
    | _ => false
  tail clean ||
    (match expectLit ['9', '7', '8'] clean with
     | some r => tail r
     | none => false) ||
    (match expectLit ['9', '7', '9'] clean with
     | some r => tail r
     | none => false)

/-- `validate_issn`: `^ISSN\s?\d{4}-\d{3}[\dX]$`, `re.IGNORECASE`. -/
def validate_issn (s : String) : Bool :=
  pyAnchored
    (fun cs0 =>
      let cs := cs0.map Char.toLower
      match expectLit ['i', 's', 's', 'n'] cs with
      | none => false
      | some r =>
        (r :: (match r with
               | c :: rest => if pyIsSpace c then [rest] else []
               | [] => [])).any fun r2 =>
          match takeDigits 4 r2 |>.bind (expectChar '-') |>.bind (takeDigits 3) with
          | some [c] => c.isDigit || c = 'x'
          | _ => false)
    s

/-- Code-point ranges of Unicode general category Nd (decimal digits),
Unicode 15.0 — the set matched by Python `\d` in a `str` pattern without
`re.ASCII` (CPython 3.12/3.13).  680 code points: 63 runs of ten plus the
fifty mathematical digits `1D7CE–1D7FF`. -/
def ndRanges : List (Nat × Nat) :=
  [(0x30, 0x39), (0x660, 0x669), (0x6F0, 0x6F9), (0x7C0, 0x7C9),
   (0x966, 0x96F), (0x9E6, 0x9EF), (0xA66, 0xA6F), (0xAE6, 0xAEF),
   (0xB66, 0xB6F), (0xBE6, 0xBEF), (0xC66, 0xC6F), (0xCE6, 0xCEF),
   (0xD66, 0xD6F), (0xDE6, 0xDEF), (0xE50, 0xE59), (0xED0, 0xED9),
   (0xF20, 0xF29), (0x1040, 0x1049), (0x1090, 0x1099), (0x17E0, 0x17E9),
   (0x1810, 0x1819), (0x1946, 0x194F), (0x19D0, 0x19D9), (0x1A80, 0x1A89),
   (0x1A90, 0x1A99), (0x1B50, 0x1B59), (0x1BB0, 0x1BB9), (0x1C40, 0x1C49),
   (0x1C50, 0x1C59), (0xA620, 0xA629), (0xA8D0, 0xA8D9), (0xA900, 0xA909),
   (0xA9D0, 0xA9D9), (0xA9F0, 0xA9F9), (0xAA50, 0xAA59), (0xABF0, 0xABF9),
   (0xFF10, 0xFF19), (0x104A0, 0x104A9), (0x10D30, 0x10D39),
   (0x11066, 0x1106F), (0x110F0, 0x110F9), (0x11136, 0x1113F),
   (0x111D0, 0x111D9), (0x112F0, 0x112F9), (0x11450, 0x11459),
   (0x114D0, 0x114D9), (0x11650, 0x11659), (0x116C0, 0x116C9),
   (0x11730, 0x11739), (0x118E0, 0x118E9), (0x11950, 0x11959),
   (0x11C50, 0x11C59), (0x11D50, 0x11D59), (0x11DA0, 0x11DA9),
   (0x11F50, 0x11F59), (0x16A60, 0x16A69), (0x16AC0, 0x16AC9),
   (0x16B50, 0x16B59), (0x1D7CE, 0x1D7FF), (0x1E140, 0x1E149),
   (0x1E2F0, 0x1E2F9), (0x1E4F0, 0x1E4F9), (0x1E950, 0x1E959),
   (0x1FBF0, 0x1FBF9)]

/-- Python `\d` (no `re.ASCII`): membership in Unicode category Nd. -/
def pyIsDigit (c : Char) : Bool :=
  ndRanges.any fun r => r.1 ≤ c.toNat && c.toNat ≤ r.2

/-- Consume exactly `n` characters of the digit class `digit`. -/
def takeDigitsWith (digit : Char → Bool) : Nat → List Char → Option (List Char)
  | 0, cs => some cs
  | n + 1, c :: cs => if digit c then takeDigitsWith digit n cs else none
  | _ + 1, [] => none

/-- The ORCID pattern `0000-000[1-3]-\d{4}-\d{3}[\dX]` matched against a
whole character list, with `\d` read as the digit class `digit` (the
literal prefix and `[1-3]` are exact ASCII characters in the pattern). -/
def orcidBodyWith (digit : Char → Bool) (cs : List Char) : Bool :=
  match expectLit "0000-000".data cs with
  | none => false
  | some (c :: r) =>
    (c = '1' || c = '2' || c = '3') &&
    (match expectChar '-' r |>.bind (takeDigitsWith digit 4) |>.bind (expectChar '-')
        |>.bind (takeDigitsWith digit 3) with
     | some [d] => digit d || d = 'X'
     | _ => false)
  | some [] => false

/-- Body of the source's ORCID pattern with Python's `\d` semantics
(Unicode Nd). -/
def orcidBody (cs : List Char) : Bool :=
  orcidBodyWith pyIsDigit cs

/-- `validate_orcid`: `^0000-000[1-3]-\d{4}-\d{3}[\dX]$` (no flags). -/
def validate_orcid (s : String) : Bool :=
  pyAnchored orcidBody s

/-- The claim's shape `0000-000[1-3]-DDDD-DDD[0-9X]` with ASCII digits
`D ∈ 0-9`, as a predicate on the *whole* string — no trailing-newline
allowance, no non-ASCII digits. -/
def orcidSpecShape (s : String) : Bool :=
  orcidBodyWith Char.isDigit s.data

/-- What `validate_orcid` actually matches against the whole string: the
pattern with `\d` = any Unicode decimal digit. -/
def orcidNdShape (s : String) : Bool :=
  orcidBody s.data

/-- One coordinate bound pair: `-?\d+\.?\d*-?-?\d+\.?\d*`; returns all possible rests
(the pattern needs backtracking, so we enumerate the choice points). -/
def coordComponentRests (cs : List Char) : List (List Char) :=
  (optCharRests '-' cs).flatMap fun r1 =>
  (digitsPlusRests r1).flatMap fun r2 =>
  (optCharRests '.' r2).flatMap fun r3 =>
  (digitsStarRests r3).flatMap fun r4 =>
  (optCharRests '-' r4).flatMap fun r5 =>
  (optCharRests '-' r5).flatMap fun r6 =>
  (digitsPlusRests r6).flatMap fun r7 =>
  (optCharRests '.' r7).flatMap fun r8 =>
  digitsStarRests r8

/-- `validate_coordinates`:
`^lat:\s*-?\d+\.?\d*-?-?\d+\.?\d*,\s*lon:\s*-?\d+\.?\d*-?-?\d+\.?\d*$` (no flags). -/
def validate_coordinates (s : String) : Bool :=
  pyAnchored
    (fun cs =>
      match expectLit "lat:".data cs with
      | none => false
      | some r =>
        (spacesStarRests r).any fun r1 =>
        (coordComponentRests r1).any fun r2 =>
        match expectChar ',' r2 with
        | none => false
        | some r3 =>
          (spacesStarRests r3).any fun r4 =>
          match expectLit "lon:".data r4 with
          | none => false
          | some r5 =>
            (spacesStarRests r5).any fun r6 =>
            (coordComponentRests r6).any fun r7 => r7 = [])
    s

/-! ## Parsed YAML trees (`yaml.safe_load` output) -/

/-- A parsed YAML value.  (Floats do not occur in any schema-relevant path and
are left unmodelled.) -/
inductive Yaml where
  | s (v : String)
  | i (v : Int)
  | b (v : Bool)
  | nullV
  | list (xs : List Yaml)
  | map (kvs : List (String × Yaml))

/-- Dictionary lookup; `yaml.safe_load` produces maps with distinct keys. -/
def yLookup (kvs : List (String × Yaml)) (k : String) : Option Yaml :=
  match kvs with
  | [] => none
  | (a, v) :: t => if a = k then some v else yLookup t k

/-- pydantic v1 `str` coercion: strings pass through; ints (and bools, which
are `int` subclasses in Python) and floats are converted with `str()`. -/
def asStr : Yaml → Option String
  | .s v => some v
  | .i n => some (toString n)
  | .b bv => some (if bv then "True" else "False")
  | _ => none

/-- pydantic v1 `bool` coercion (`bool_validator`). -/
def asBool : Yaml → Option Bool
  | .b bv => some bv
  | .i 0 => some false
  | .i 1 => some true
  | .s v =>
    let lower := String.mk (v.data.map Char.toLower)
    if ["1", "on", "t", "true", "y", "yes"].contains lower then some true
    else if ["0", "off", "f", "false", "n", "no"].contains lower then some false
    else none
  | _ => none

/-- `Config.extra = "forbid"`: every key of the mapping must be allow-listed. -/
def extraOk (allowed : List String) (kvs : List (String × Yaml)) : Bool :=
  kvs.all fun kv => allowed.contains kv.1

/-- A pydantic `Field(regex=...)` whose pattern is `^(w1|w2|…)$` of literal
words: `re.match` therefore accepts a word optionally followed by `'\n'`. -/
def pyRegexAlt (opts : List String) (s : String) : Bool :=
  pyAnchored (fun cs => opts.any fun o => o.data == cs) s

/-- Required `str` field with length bounds (`Field(..., min_length, max_length)`). -/
def reqStr (kvs : List (String × Yaml)) (name : String) (minLen : Nat)
    (maxLen : Option Nat) : Except String String :=
  match yLookup kvs name with
  | none => .error (name ++ ": field required")
  | some .nullV => .error (name ++ ": none is not an allowed value")
  | some v =>
    match asStr v with
    | none => .error (name ++ ": str type expected")
    | some str =>
      if str.length < minLen then
        .error (name ++ ": ensure this value has at least " ++ toString minLen ++ " characters")
      else
        match maxLen with
        | some m =>
          if m < str.length then
            .error (name ++ ": ensure this value has at most " ++ toString m ++ " characters")
          else .ok str
        | none => .ok str

/-- Optional `str` field with no constraints (`Optional[str] = None`). -/
def optStrFree (kvs : List (String × Yaml)) (name : String) :
    Except String (Option String) :=
  match yLookup kvs name with
  | none => .ok none
  | some .nullV => .ok none
  | some v =>
    match asStr v with
    | none => .error (name ++ ": str type expected")
    | some str => .ok (some str)

/-- Optional `str` field with a max-length bound (`Field(None, max_length=m)`). -/
def optStr (kvs : List (String × Yaml)) (name : String) (maxLen : Nat) :
    Except String (Option String) :=
  (optStrFree kvs name).bind fun o =>
    match o with
    | none => .ok none
    | some str =>
      if maxLen < str.length then
        .error (name ++ ": ensure this value has at most " ++ toString maxLen ++ " characters")
      else .ok (some str)

/-- Optional `str` field constrained by a literal-alternation regex
(`Field(None, regex=r'^(w1|w2|…)$')`). -/
def optRegexAlt (kvs : List (String × Yaml)) (name : String) (opts : List String) :
    Except String (Option String) :=
  (optStrFree kvs name).bind fun o =>
    match o with
    | none => .ok none
    | some str =>
      if pyRegexAlt opts str then .ok (some str)
      else .error (name ++ ": string does not match regex")

/-- Optional `str` field constrained by a general regex body (used for the
checksum and timestamp patterns). -/
def optRegexShape (kvs : List (String × Yaml)) (name : String)
    (body : List Char → Bool) : Except String (Option String) :=
  (optStrFree kvs name).bind fun o =>
    match o with
    | none => .ok none
    | some str =>
      if pyAnchored body str then .ok (some str)
      else .error (name ++ ": string does not match regex")

/-- Optional enumeration field (`Optional[SomeStrEnum]`): pydantic calls
`SomeStrEnum(v)`, which requires an exact member value. -/
def optEnum (kvs : List (String × Yaml)) (name : String) (vals : List String) :
    Except String (Option String) :=
  match yLookup kvs name with
  | none => .ok none
  | some .nullV => .ok none
  | some (.s v) =>
    if vals.contains v then .ok (some v)
    else .error (name ++ ": value is not a valid enumeration member")
  | some _ => .error (name ++ ": value is not a valid enumeration member")

/-- Split at the first `"://"`: the part before it and the part after it. -/
def schemeSplit : List Char → Option (List Char × List Char)
  | [] => none
  | c :: cs =>
    match expectLit "://".data (c :: cs) with
    | some post => some ([], post)
    | none =>
      match schemeSplit cs with
      | some (pre, post) => some (c :: pre, post)
      | none => none

/-- Approximation of pydantic v1 `AnyUrl`: an alphabetic scheme, `"://"`, and
a non-empty remainder.  (The library's URL grammar is far larger; every URL
exercised by the claims is of this plain shape.) -/
def anyUrlOk (s : String) : Bool :=
  match schemeSplit s.data with
  | some (sch, rest) => sch ≠ [] && sch.all Char.isAlpha && rest ≠ []
  | none => false

/-- Approximation of pydantic v1 `HttpUrl`: `AnyUrl` with an http(s) scheme. -/
def httpUrlOk (s : String) : Bool :=
  ((expectLit "http://".data s.data).isSome || (expectLit "https://".data s.data).isSome)
    && anyUrlOk s

/-- Optional URL field. -/
def optUrl (kvs : List (String × Yaml)) (name : String) (check : String → Bool) :
    Except String (Option String) :=
  match yLookup kvs name with
  | none => .ok none
  | some .nullV => .ok none
  | some (.s v) =>
    if check v then .ok (some v) else .error (name ++ ": invalid or missing URL")
  | some _ => .error (name ++ ": URL str type expected")

/-- Optional `bool` field. -/
def optBool (kvs : List (String × Yaml)) (name : String) :
    Except String (Option Bool) :=
  match yLookup kvs name with
  | none => .ok none
  | some .nullV => .ok none
  | some v =>
    match asBool v with
    | none => .error (name ++ ": value could not be parsed to a boolean")
    | some bv => .ok (some bv)

/-! ## Fixed vocabularies (enums and literal-alternation regexes) -/

/-- `ISO639_1` member values. -/
def iso639Codes : List String :=
  ["en", "es", "fr", "de", "it", "pt", "ru", "ja", "zh", "ar",
   "hi", "ko", "nl", "sv", "no", "da", "fi", "pl", "cs", "hu"]

/-- `ISO3166_1` member values. -/
def iso3166Codes : List String :=
  ["US", "USA", "GB", "UK", "CA", "AU", "DE", "FR", "ES", "IT",
   "JP", "CN", "IN", "BR", "MX", "RU", "EU"]

/-- `DCMITypeVocabulary` member values. -/
def dcmiTypeValues : List String :=
  ["Collection", "Dataset", "Event", "Image", "InteractiveResource",
   "MovingImage", "PhysicalObject", "Service", "Software", "Sound",
   "StillImage", "Text"]

/-- `SubjectScheme` member values. -/
def subjectSchemeValues : List String :=
  ["LCSH", "MeSH", "DDC", "UDC", "LCC", "AGROVOC", "AAT", "keyword", "local"]

/-- `DateScheme` member values. -/
def dateSchemeValues : List String :=
  ["W3CDTF", "DCMI Period", "TGN", "local"]

/-- `IdentifierScheme` member values. -/
def identifierSchemeValues : List String :=
  ["URI", "URN", "DOI", "ISBN", "ISSN", "Handle", "local"]

def titleTypeOpts : List String :=
  ["main", "alternative", "translated", "subtitle", "uniform", "abbreviated", "expanded"]

def personTypeOpts : List String :=
  ["personal", "corporate", "conference", "family"]

def creatorRoleOpts : List String :=
  ["author", "principal investigator", "co-investigator", "researcher",
   "analyst", "institutional author"]

def descriptionTypeOpts : List String :=
  ["abstract", "summary", "tableOfContents", "methods", "purpose", "scope",
   "provenance", "review", "version", "other"]

def publisherTypeOpts : List String :=
  ["commercial", "university", "government", "society", "individual", "other"]

def publisherRoleOpts : List String :=
  ["publisher", "co-publisher", "distributor", "sponsor"]

def contributorRoleOpts : List String :=
  ["editor", "translator", "illustrator", "data collector", "advisor",
   "reviewer", "sponsor", "funder", "distributor", "graphics design",
   "data analyst", "peer reviewer", "other"]

def dateTypeOpts : List String :=
  ["created", "valid", "available", "issued", "modified", "submitted",
   "accepted", "copyrighted", "collected", "published", "temporal_coverage"]

def typeSchemeOpts : List String :=
  ["DCMI Type Vocabulary", "local", "AAT", "MARC Genre Terms"]

def formatTypeOpts : List String :=
  ["media_type", "extent", "medium", "dimensions", "file_size"]

def formatSchemeOpts : List String :=
  ["IMT", "local"]

def identifierTypeOpts : List String :=
  ["DOI", "ISBN", "ISSN", "URI", "URL", "URN", "Handle", "PMID", "PMC", "arXiv", "local"]

def sourceTypeOpts : List String :=
  ["dataset", "publication", "website", "database", "collection",
   "publication_series", "conference_proceedings", "report", "thesis",
   "remote_sensing_data", "field_data"]

def languageSchemeOpts : List String :=
  ["ISO 639-1", "ISO 639-2", "ISO 639-3", "RFC 3066", "local"]

def relationTypeOpts : List String :=
  ["isVersionOf", "hasVersion", "isReplacedBy", "replaces", "isRequiredBy",
   "requires", "isPartOf", "hasPart", "isReferencedBy", "references",
   "isFormatOf", "hasFormat", "conformsTo", "isBasedOn", "isBasisFor",
   "continues", "isContinuedBy", "accompanies", "isAccompaniedBy",
   "isSupplementTo", "isSupplementedBy"]

def coverageTypeOpts : List String :=
  ["spatial", "temporal", "jurisdiction"]

def coverageSchemeOpts : List String :=
  ["TGN", "LCSH", "GeoNames", "ISO 3166", "WGS84", "W3CDTF", "local"]

def rightsTypeOpts : List String :=
  ["copyright", "license", "access_rights", "use_restrictions", "data_rights",
   "embargo", "terms_of_use"]

def reviewTypeOpts : List String :=
  ["single-blind", "double-blind", "open", "post-publication", "editorial"]

def preservationLevelOpts : List String :=
  ["bit-level", "logical", "full", "none"]

/-- `^(md5|sha1|sha256|sha512):[a-fA-F0-9]+$` body. -/
def checksumBody (cs : List Char) : Bool :=
  ["md5:", "sha1:", "sha256:", "sha512:"].any fun p =>
    match expectLit p.data cs with
    | some r => r ≠ [] && r.all fun c => c.isDigit || "abcdefABCDEF".data.contains c
    | none => false

/-- `^\d{4}-\d{2}-\d{2}T\d{2}:\d{2}:\d{2}Z$` body (mandatory `Z`). -/
def recordTimestampBody (cs : List Char) : Bool :=
  (takeDigits 4 cs |>.bind (expectChar '-') |>.bind (takeDigits 2)
    |>.bind (expectChar '-') |>.bind (takeDigits 2) |>.bind (expectChar 'T')
    |>.bind (takeDigits 2) |>.bind (expectChar ':') |>.bind (takeDigits 2)
    |>.bind (expectChar ':') |>.bind (takeDigits 2) |>.bind (expectChar 'Z'))
    = some []

/-! ## Element models

Each parser processes the fields in their Python declaration order; a
`@validator` on a field runs right after that field's own constraints, and —
per pydantic v1 — sees in `values` only the previously declared fields.
-/

structure TitleElement where
  value : String
  type : Option String
  language : Option String

def parseTitleElement : Yaml → Except String TitleElement
  | .map kvs =>
    if !extraOk ["value", "type", "language"] kvs then .error "extra fields not permitted"
    else
      (reqStr kvs "value" 1 (some 1000)).bind fun value =>
      (optRegexAlt kvs "type" titleTypeOpts).bind fun type =>
      (optEnum kvs "language" iso639Codes).bind fun language =>
      .ok ⟨value, type, language⟩
  | _ => .error "value is not a valid dict"

structure CreatorElement where
  name : String
  type : Option String
  affiliation : Option String
  orcid : Option String
  role : Option String

/-- `CreatorElement.validate_orcid_format` (a single-field validator, so it
really runs on the field's value). -/
def CreatorElement.validate_orcid_format (v : Option String) :
    Except String (Option String) :=
  match v with
  | some o => if !validate_orcid o then .error "Invalid ORCID format" else .ok (some o)
  | none => .ok none

def parseCreatorElement : Yaml → Except String CreatorElement
  | .map kvs =>
    if !extraOk ["name", "type", "affiliation", "orcid", "role"] kvs then
      .error "extra fields not permitted"
    else
      (reqStr kvs "name" 1 (some 500)).bind fun name =>
      (optRegexAlt kvs "type" personTypeOpts).bind fun type =>
      (optStr kvs "affiliation" 500).bind fun affiliation =>
      ((optStrFree kvs "orcid").bind CreatorElement.validate_orcid_format).bind fun orcid =>
      (optRegexAlt kvs "role" creatorRoleOpts).bind fun role =>
      .ok ⟨name, type, affiliation, orcid, role⟩
  | _ => .error "value is not a valid dict"

structure SubjectElement where
  value : String
  scheme : Option String
  uri : Option String
  note : Option String

def parseSubjectElement : Yaml → Except String SubjectElement
  | .map kvs =>
    if !extraOk ["value", "scheme", "uri", "note"] kvs then .error "extra fields not permitted"
    else
      (reqStr kvs "value" 1 (some 500)).bind fun value =>
      (optEnum kvs "scheme" subjectSchemeValues).bind fun scheme =>
      (optUrl kvs "uri" anyUrlOk).bind fun uri =>
      (optStr kvs "note" 200).bind fun note =>
      .ok ⟨value, scheme, uri, note⟩
  | _ => .error "value is not a valid dict"

structure DescriptionElement where
  value : String
  type : Option String
  language : Option String

def parseDescriptionElement : Yaml → Except String DescriptionElement
  | .map kvs =>
    if !extraOk ["value", "type", "language"] kvs then .error "extra fields not permitted"
    else
      (reqStr kvs "value" 1 (some 5000)).bind fun value =>
      (optRegexAlt kvs "type" descriptionTypeOpts).bind fun type =>
      (optEnum kvs "language" iso639Codes).bind fun language =>
      .ok ⟨value, type, language⟩
  | _ => .error "value is not a valid dict"

structure PublisherElement where
  name : String
  type : Option String
  location : Option String
  website : Option String
  role : Option String

def parsePublisherElement : Yaml → Except String PublisherElement
  | .map kvs =>
    if !extraOk ["name", "type", "location", "website", "role"] kvs then
      .error "extra fields not permitted"
    else
      (reqStr kvs "name" 1 (some 500)).bind fun name =>
      (optRegexAlt kvs "type" publisherTypeOpts).bind fun type =>
      (optStr kvs "location" 200).bind fun location =>
      (optUrl kvs "website" httpUrlOk).bind fun website =>
      (optRegexAlt kvs "role" publisherRoleOpts).bind fun role =>
      .ok ⟨name, type, location, website, role⟩
  | _ => .error "value is not a valid dict"

structure ContributorElement where
  name : String
  type : Option String
  role : Option String
  affiliation : Option String

def parseContributorElement : Yaml → Except String ContributorElement
  | .map kvs =>
    if !extraOk ["name", "type", "role", "affiliation"] kvs then
      .error "extra fields not permitted"
    else
      (reqStr kvs "name" 1 (some 500)).bind fun name =>
      (optRegexAlt kvs "type" personTypeOpts).bind fun type =>
      (optRegexAlt kvs "role" contributorRoleOpts).bind fun role =>
      (optStr kvs "affiliation" 500).bind fun affiliation =>
      .ok ⟨name, type, role, affiliation⟩
  | _ => .error "value is not a valid dict"

structure DateElement where
  value : String
  type : Option String
  scheme : Option String
  note : Option String

/-- `DateElement.validate_date_format`: the source reads
`scheme = values.get('scheme')` and rejects a non-ISO-8601 `value` when the
scheme is `W3CDTF`.  `schemeInValues` is what `values.get('scheme')` returns
at the point the validator runs. -/
def DateElement.validate_date_format (v : String) (schemeInValues : Option String) :
    Except String String :=
  if schemeInValues = some "W3CDTF" && !validate_iso8601_date v then
    .error "Invalid ISO 8601 date format for W3CDTF scheme"
  else .ok v

def parseDateElement : Yaml → Except String DateElement
  | .map kvs =>
    if !extraOk ["value", "type", "scheme", "note"] kvs then .error "extra fields not permitted"
    else
      (reqStr kvs "value" 1 none).bind fun value =>
      -- pydantic v1: `values` holds only previously validated fields; `value`
      -- is the first declared field of `DateElement`, so `values.get('scheme')`
      -- is always `None` here and the W3CDTF branch cannot fire.
      (DateElement.validate_date_format value none).bind fun value =>
      (optRegexAlt kvs "type" dateTypeOpts).bind fun type =>
      (optEnum kvs "scheme" dateSchemeValues).bind fun scheme =>
      (optStr kvs "note" 200).bind fun note =>
      .ok ⟨value, type, scheme, note⟩
  | _ => .error "value is not a valid dict"

structure TypeElement where
  value : String
  scheme : Option String
  uri : Option String

/-- `TypeElement.validate_dcmi_type` with `values.get('scheme')` as argument. -/
def TypeElement.validate_dcmi_type (v : String) (schemeInValues : Option String) :
    Except String String :=
  if schemeInValues = some "DCMI Type Vocabulary" && !dcmiTypeValues.contains v then
    .error ("Invalid DCMI Type: " ++ v)
  else .ok v

def parseTypeElement : Yaml → Except String TypeElement
  | .map kvs =>
    if !extraOk ["value", "scheme", "uri"] kvs then .error "extra fields not permitted"
    else
      (reqStr kvs "value" 1 (some 200)).bind fun value =>
      -- `value` is declared before `scheme`: `values.get('scheme')` is `None`.
      (TypeElement.validate_dcmi_type value none).bind fun value =>
      (optRegexAlt kvs "scheme" typeSchemeOpts).bind fun scheme =>
      (optUrl kvs "uri" anyUrlOk).bind fun uri =>
      .ok ⟨value, scheme, uri⟩
  | _ => .error "value is not a valid dict"

structure FormatElement where
  value : String
  type : Option String
  scheme : Option String

def parseFormatElement : Yaml → Except String FormatElement
  | .map kvs =>
    if !extraOk ["value", "type", "scheme"] kvs then .error "extra fields not permitted"
    else
      (reqStr kvs "value" 1 (some 200)).bind fun value =>
      (optRegexAlt kvs "type" formatTypeOpts).bind fun type =>
      (optRegexAlt kvs "scheme" formatSchemeOpts).bind fun scheme =>
      .ok ⟨value, type, scheme⟩
  | _ => .error "value is not a valid dict"

structure IdentifierElement where
  value : String
  type : Option String
  scheme : Option String
  note : Option String

/-- `IdentifierElement.validate_identifier_format` with `values.get('type')`
as argument: dispatches to the DOI/ISBN/ISSN validators. -/
def IdentifierElement.validate_identifier_format (v : String)
    (typeInValues : Option String) : Except String String :=
  if typeInValues = some "DOI" && !validate_doi v then .error "Invalid DOI format"
  else if typeInValues = some "ISBN" && !validate_isbn v then .error "Invalid ISBN format"
  else if typeInValues = some "ISSN" && !validate_issn v then .error "Invalid ISSN format"
  else .ok v

def parseIdentifierElement : Yaml → Except String IdentifierElement
  | .map kvs =>
    if !extraOk ["value", "type", "scheme", "note"] kvs then .error "extra fields not permitted"
    else
      (reqStr kvs "value" 1 (some 500)).bind fun value =>
      -- `value` is declared before `type`: `values.get('type')` is `None`,
      -- so the DOI/ISBN/ISSN dispatch cannot fire.
      (IdentifierElement.validate_identifier_format value none).bind fun value =>
      (optRegexAlt kvs "type" identifierTypeOpts).bind fun type =>
      (optEnum kvs "scheme" identifierSchemeValues).bind fun scheme =>
      (optStr kvs "note" 200).bind fun note =>
      .ok ⟨value, type, scheme, note⟩
  | _ => .error "value is not a valid dict"

structure SourceElement where
  value : String
  type : Option String
  identifier : Option String

def parseSourceElement : Yaml → Except String SourceElement
  | .map kvs =>
    if !extraOk ["value", "type", "identifier"] kvs then .error "extra fields not permitted"
    else
      (reqStr kvs "value" 1 (some 1000)).bind fun value =>
      (optRegexAlt kvs "type" sourceTypeOpts).bind fun type =>
      (optStr kvs "identifier" 500).bind fun identifier =>
      .ok ⟨value, type, identifier⟩
  | _ => .error "value is not a valid dict"

structure LanguageElement where
  value : String
  scheme : Option String
  name : Option String
  note : Option String

/-- `LanguageElement.validate_language_code` with `values.get('scheme')` as
argument; on success it returns `v.lower()`. -/
def LanguageElement.validate_language_code (v : String)
    (schemeInValues : Option String) : Except String String :=
  if schemeInValues = some "ISO 639-1" && v.length ≠ 2 then
    .error "ISO 639-1 codes must be 2 characters"
  else if (schemeInValues = some "ISO 639-2" || schemeInValues = some "ISO 639-3")
      && v.length ≠ 3 then
    .error "codes must be 3 characters"
  else .ok (String.mk (v.data.map Char.toLower))

def parseLanguageElement : Yaml → Except String LanguageElement
  | .map kvs =>
    if !extraOk ["value", "scheme", "name", "note"] kvs then .error "extra fields not permitted"
    else
      (reqStr kvs "value" 2 (some 3)).bind fun value =>
      -- `value` is declared before `scheme`: `values.get('scheme')` is `None`;
      -- the lower-casing still applies.
      (LanguageElement.validate_language_code value none).bind fun value =>
      (optRegexAlt kvs "scheme" languageSchemeOpts).bind fun scheme =>
      (optStr kvs "name" 100).bind fun name =>
      (optStr kvs "note" 200).bind fun note =>
      .ok ⟨value, scheme, name, note⟩
  | _ => .error "value is not a valid dict"

structure RelationElement where
  value : String
  type : Option String
  description : Option String

def parseRelationElement : Yaml → Except String RelationElement
  | .map kvs =>
    if !extraOk ["value", "type", "description"] kvs then .error "extra fields not permitted"
    else
      (reqStr kvs "value" 1 (some 500)).bind fun value =>
      (optRegexAlt kvs "type" relationTypeOpts).bind fun type =>
      (optStr kvs "description" 500).bind fun description =>
      .ok ⟨value, type, description⟩
  | _ => .error "value is not a valid dict"

structure CoverageElement where
  value : String
  type : Option String
  scheme : Option String
  coordinates : Option String
  description : Option String

/-- `CoverageElement.validate_coordinate_format` (single-field validator). -/
def CoverageElement.validate_coordinate_format (v : Option String) :
    Except String (Option String) :=
  match v with
  | some c => if !validate_coordinates c then .error "Invalid coordinate format" else .ok (some c)
  | none => .ok none

def parseCoverageElement : Yaml → Except String CoverageElement
  | .map kvs =>
    if !extraOk ["value", "type", "scheme", "coordinates", "description"] kvs then
      .error "extra fields not permitted"
    else
      (reqStr kvs "value" 1 (some 500)).bind fun value =>
      (optRegexAlt kvs "type" coverageTypeOpts).bind fun type =>
      (optRegexAlt kvs "scheme" coverageSchemeOpts).bind fun scheme =>
      ((optStrFree kvs "coordinates").bind CoverageElement.validate_coordinate_format).bind
        fun coordinates =>
      (optStr kvs "description" 500).bind fun description =>
      .ok ⟨value, type, scheme, coordinates, description⟩
  | _ => .error "value is not a valid dict"

structure RightsElement where
  value : String
  type : Option String
  uri : Option String
  description : Option String
  note : Option String

def parseRightsElement : Yaml → Except String RightsElement
  | .map kvs =>
    if !extraOk ["value", "type", "uri", "description", "note"] kvs then
      .error "extra fields not permitted"
    else
      (reqStr kvs "value" 1 (some 1000)).bind fun value =>
      (optRegexAlt kvs "type" rightsTypeOpts).bind fun type =>
      (optUrl kvs "uri" anyUrlOk).bind fun uri =>
      (optStr kvs "description" 500).bind fun description =>
      (optStr kvs "note" 200).bind fun note =>
      .ok ⟨value, type, uri, description, note⟩
  | _ => .error "value is not a valid dict"

/-! ## Additional metadata models -/

structure FundingElement where
  agency : String
  grant_number : Option String
  country : Option String

def parseFundingElement : Yaml → Except String FundingElement
  | .map kvs =>
    if !extraOk ["agency", "grant_number", "country"] kvs then .error "extra fields not permitted"
    else
      (reqStr kvs "agency" 1 (some 300)).bind fun agency =>
      (optStr kvs "grant_number" 100).bind fun grant_number =>
      (optEnum kvs "country" iso3166Codes).bind fun country =>
      .ok ⟨agency, grant_number, country⟩
  | _ => .error "value is not a valid dict"

structure QualityElement where
  peer_review : Option Bool
  review_type : Option String
  editorial_board_approved : Option Bool

def parseQualityElement : Yaml → Except String QualityElement
  | .map kvs =>
    if !extraOk ["peer_review", "review_type", "editorial_board_approved"] kvs then
      .error "extra fields not permitted"
    else
      (optBool kvs "peer_review").bind fun peer_review =>
      (optRegexAlt kvs "review_type" reviewTypeOpts).bind fun review_type =>
      (optBool kvs "editorial_board_approved").bind fun editorial_board_approved =>
      .ok ⟨peer_review, review_type, editorial_board_approved⟩
  | _ => .error "value is not a valid dict"

structure TechnicalElement where
  creation_software : Option String
  figures_software : Option String
  data_analysis_software : Option String

def parseTechnicalElement : Yaml → Except String TechnicalElement
  | .map kvs =>
    if !extraOk ["creation_software", "figures_software", "data_analysis_software"] kvs then
      .error "extra fields not permitted"
    else
      (optStr kvs "creation_software" 200).bind fun creation_software =>
      (optStr kvs "figures_software" 200).bind fun figures_software =>
      (optStr kvs "data_analysis_software" 200).bind fun data_analysis_software =>
      .ok ⟨creation_software, figures_software, data_analysis_software⟩
  | _ => .error "value is not a valid dict"

structure PreservationElement where
  checksum : Option String
  preservation_level : Option String
  migration_path : Option String

def parsePreservationElement : Yaml → Except String PreservationElement
  | .map kvs =>
    if !extraOk ["checksum", "preservation_level", "migration_path"] kvs then
      .error "extra fields not permitted"
    else
      (optRegexShape kvs "checksum" checksumBody).bind fun checksum =>
      (optRegexAlt kvs "preservation_level" preservationLevelOpts).bind fun preservation_level =>
      (optStr kvs "migration_path" 200).bind fun migration_path =>
      .ok ⟨checksum, preservation_level, migration_path⟩
  | _ => .error "value is not a valid dict"

/-- Validate each item of a `List[Model]` field (pydantic list validation). -/
def parseEach (p : Yaml → Except String α) : List Yaml → Except String (List α)
  | [] => .ok []
  | x :: xs =>
    (p x).bind fun y =>
    (parseEach p xs).bind fun ys =>
    .ok (y :: ys)

/-- `Optional[List[Model]]` field. -/
def optList (kvs : List (String × Yaml)) (name : String)
    (p : Yaml → Except String α) : Except String (Option (List α)) :=
  match yLookup kvs name with
  | none => .ok none
  | some .nullV => .ok none
  | some (.list xs) => (parseEach p xs).map some
  | some _ => .error (name ++ ": value is not a valid list")

/-- `Optional[Model]` (single nested object) field. -/
def optObj (kvs : List (String × Yaml)) (name : String)
    (p : Yaml → Except String α) : Except String (Option α) :=
  match yLookup kvs name with
  | none => .ok none
  | some .nullV => .ok none
  | some v => (p v).map some

structure AdditionalMetadata where
  funding : Option (List FundingElement)
  quality : Option QualityElement
  technical : Option TechnicalElement
  preservation : Option PreservationElement

def parseAdditionalMetadata : Yaml → Except String AdditionalMetadata
  | .map kvs =>
    if !extraOk ["funding", "quality", "technical", "preservation"] kvs then
      .error "extra fields not permitted"
    else
      (optList kvs "funding" parseFundingElement).bind fun funding =>
      (optObj kvs "quality" parseQualityElement).bind fun quality =>
      (optObj kvs "technical" parseTechnicalElement).bind fun technical =>
      (optObj kvs "preservation" parsePreservationElement).bind fun preservation =>
      .ok ⟨funding, quality, technical, preservation⟩
  | _ => .error "value is not a valid dict"

structure MetadataRecord where
  created_date : Option String
  created_by : Option String
  last_modified : Option String
  modified_by : Option String
  record_identifier : Option String
  schema_version : Option String
  encoding : Option String

def parseMetadataRecord : Yaml → Except String MetadataRecord
  | .map kvs =>
    if !extraOk ["created_date", "created_by", "last_modified", "modified_by",
        "record_identifier", "schema_version", "encoding"] kvs then
      .error "extra fields not permitted"
    else
      (optRegexShape kvs "created_date" recordTimestampBody).bind fun created_date =>
      (optStr kvs "created_by" 200).bind fun created_by =>
      (optRegexShape kvs "last_modified" recordTimestampBody).bind fun last_modified =>
      (optStr kvs "modified_by" 200).bind fun modified_by =>
      (optStr kvs "record_identifier" 100).bind fun record_identifier =>
      (optStr kvs "schema_version" 100).bind fun schema_version =>
      (optRegexAlt kvs "encoding" ["UTF-8"]).bind fun encoding =>
      .ok ⟨created_date, created_by, last_modified, modified_by,
           record_identifier, schema_version, encoding⟩
  | _ => .error "value is not a valid dict"

/-! ## Main Dublin Core model -/

structure DublinCore where
  title : Option (List TitleElement)
  creator : Option (List CreatorElement)
  subject : Option (List SubjectElement)
  description : Option (List DescriptionElement)
  publisher : Option (List PublisherElement)
  contributor : Option (List ContributorElement)
  date : Option (List DateElement)
  type : Option (List TypeElement)
  format : Option (List FormatElement)
  identifier : Option (List IdentifierElement)
  source : Option (List SourceElement)
  language : Option (List LanguageElement)
  relation : Option (List RelationElement)
  coverage : Option (List CoverageElement)
  rights : Option (List RightsElement)

def dublinCoreFields : List String :=
  ["title", "creator", "subject", "description", "publisher", "contributor",
   "date", "type", "format", "identifier", "source", "language", "relation",
   "coverage", "rights"]

def parseDublinCore (kvs : List (String × Yaml)) : Except String DublinCore :=
  if !extraOk dublinCoreFields kvs then .error "extra fields not permitted"
  else
    (optList kvs "title" parseTitleElement).bind fun title =>
    (optList kvs "creator" parseCreatorElement).bind fun creator =>
    (optList kvs "subject" parseSubjectElement).bind fun subject =>
    (optList kvs "description" parseDescriptionElement).bind fun description =>
    (optList kvs "publisher" parsePublisherElement).bind fun publisher =>
    (optList kvs "contributor" parseContributorElement).bind fun contributor =>
    (optList kvs "date" parseDateElement).bind fun date =>
    (optList kvs "type" parseTypeElement).bind fun type =>
    (optList kvs "format" parseFormatElement).bind fun format =>
    (optList kvs "identifier" parseIdentifierElement).bind fun identifier =>
    (optList kvs "source" parseSourceElement).bind fun source =>
    (optList kvs "language" parseLanguageElement).bind fun language =>
    (optList kvs "relation" parseRelationElement).bind fun relation =>
    (optList kvs "coverage" parseCoverageElement).bind fun coverage =>
    (optList kvs "rights" parseRightsElement).bind fun rights =>
    -- `@root_validator validate_required_elements`: runs after field
    -- validation; `if not values.get('title')` is true for a missing field
    -- (`None`) and for an empty list.
    if (title.getD []).isEmpty then .error "At least one title element is required"
    else if (identifier.getD []).isEmpty then .error "At least one identifier element is required"
    else .ok ⟨title, creator, subject, description, publisher, contributor,
              date, type, format, identifier, source, language, relation,
              coverage, rights⟩

structure DublinCoreDocument where
  dublin_core : DublinCore
  additional_metadata : Option AdditionalMetadata
  metadata_record : Option MetadataRecord

/-- The required `dublin_core` field of the document model. -/
def reqDublinCoreField (kvs : List (String × Yaml)) : Except String DublinCore :=
  match yLookup kvs "dublin_core" with
  | none => .error "dublin_core: field required"
  | some .nullV => .error "dublin_core: none is not an allowed value"
  | some (.map dckvs) => parseDublinCore dckvs
  | some _ => .error "dublin_core: value is not a valid dict"

def parseDublinCoreDocument (kvs : List (String × Yaml)) :
    Except String DublinCoreDocument :=
  if !extraOk ["dublin_core", "additional_metadata", "metadata_record"] kvs then
    .error "extra fields not permitted"
  else
    (reqDublinCoreField kvs).bind fun dublin_core =>
    (optObj kvs "additional_metadata" parseAdditionalMetadata).bind fun additional_metadata =>
    (optObj kvs "metadata_record" parseMetadataRecord).bind fun metadata_record =>
    .ok ⟨dublin_core, additional_metadata, metadata_record⟩

/-! ## Functional validation pipeline -/

/-- A raised Python exception: class name (`type(e).__name__`) and message. -/
structure PyExc where
  ty : String
  msg : String

/-- What one call of the pipeline can see of the outside world: the file is
missing, unreadable (the original exception propagates), syntactically
malformed, or it deserializes to a `Yaml` tree of a given byte size. -/
inductive SourceInput where
  | ioMissing (path : String)
  | ioUnreadable (path : String) (excTy : String) (excMsg : String)
  | syntaxBad (path : String) (yamlMsg : String)
  | parsed (path : String) (sizeBytes : Nat) (tree : Yaml)

def SourceInput.path : SourceInput → String
  | .ioMissing p => p
  | .ioUnreadable p _ _ => p
  | .syntaxBad p _ => p
  | .parsed p _ _ => p

/-- `path.stat().st_size`; only ever reached for a successfully parsed file. -/
def SourceInput.sizeBytes : SourceInput → Nat
  | .parsed _ n _ => n
  | _ => 0

/-- `load_yaml_file`: `yaml.YAMLError` and `FileNotFoundError` are re-raised
as `ValueError`; any other exception (e.g. `PermissionError` for an
unreadable file) propagates unchanged. -/
def load_yaml_file : SourceInput → Except PyExc Yaml
  | .ioMissing p => .error ⟨"ValueError", "File not found: " ++ p⟩
  | .ioUnreadable _ ty msg => .error ⟨ty, msg⟩
  | .syntaxBad _ msg => .error ⟨"ValueError", "Invalid YAML format: " ++ msg⟩
  | .parsed _ _ tree => .ok tree

/-- `validate_document`: `DublinCoreDocument(**data)`; a pydantic
`ValidationError` is re-raised as `ValueError`; a non-mapping `data` makes
the `**` splat itself raise `TypeError`. -/
def validate_document : Yaml → Except PyExc DublinCoreDocument
  | .map kvs =>
    match parseDublinCoreDocument kvs with
    | .ok d => .ok d
    | .error m => .error ⟨"ValueError", "Validation failed: " ++ m⟩
  | _ => .error ⟨"TypeError", "argument after ** must be a mapping"⟩

/-- The Success payload of `create_validation_report` (`validation_status`
is `'PASSED'`; the percentage is kept as an exact rational). -/
structure SuccessReport where
  total_elements : Nat
  populated_elements : Nat
  completeness_percentage : ℚ
  element_counts : List (String × Nat)
  has_additional_metadata : Bool
  has_metadata_record : Bool

/-- `create_validation_report`. -/
def create_validation_report (document : DublinCoreDocument) : SuccessReport :=
  let dc := document.dublin_core
  let element_counts : List (String × Nat) :=
    [("title", (dc.title.getD []).length),
     ("creator", (dc.creator.getD []).length),
     ("subject", (dc.subject.getD []).length),
     ("description", (dc.description.getD []).length),
     ("publisher", (dc.publisher.getD []).length),
     ("contributor", (dc.contributor.getD []).length),
     ("date", (dc.date.getD []).length),
     ("type", (dc.type.getD []).length),
     ("format", (dc.format.getD []).length),
     ("identifier", (dc.identifier.getD []).length),
     ("source", (dc.source.getD []).length),
     ("language", (dc.language.getD []).length),
     ("relation", (dc.relation.getD []).length),
     ("coverage", (dc.coverage.getD []).length),
     ("rights", (dc.rights.getD []).length)]
  let total_elements := (element_counts.map Prod.snd).sum
  let populated_elements := (element_counts.map Prod.snd).countP fun n => decide (0 < n)
  { total_elements := total_elements
    populated_elements := populated_elements
    completeness_percentage := ((populated_elements : ℚ) / 15) * 100
    element_counts := element_counts
    has_additional_metadata := document.additional_metadata.isSome
    has_metadata_record := document.metadata_record.isSome }

/-- The value returned past the public boundary: the success dict (report
plus echoed `file_path` / `file_size_bytes`) or the failure dict. -/
inductive Report where
  | passed (report : SuccessReport) (file_path : String) (file_size_bytes : Nat)
  | failed (error : String) (error_ty : String)

def Report.validation_status : Report → String
  | .passed _ _ _ => "PASSED"
  | .failed _ _ => "FAILED"

def Report.errorTy : Report → Option String
  | .failed _ ty => some ty
  | .passed _ _ _ => none

def Report.success : Report → Option SuccessReport
  | .passed r _ _ => some r
  | .failed _ _ => none

/-- The body of `validate_dublin_core_yaml` (inside the decorator). -/
def validate_dublin_core_yaml_inner (inp : SourceInput) : Except PyExc Report :=
  (load_yaml_file inp).bind fun data =>
  (validate_document data).bind fun document =>
  .ok (.passed (create_validation_report document) inp.path inp.sizeBytes)

/-- `validation_decorator`: one `try/except Exception` around the whole body,
converting any exception into the failure dict with `error_type =
type(e).__name__`. -/
def validation_decorator (f : SourceInput → Except PyExc Report) :
    SourceInput → Report := fun inp =>
  match f inp with
  | .ok r => r
  | .error e => .failed e.msg e.ty

/-- `validate_dublin_core_yaml`, the public entry point. -/
def validate_dublin_core_yaml : SourceInput → Report :=
  validation_decorator validate_dublin_core_yaml_inner

/-! ## Element kinds (the 15 fixed Dublin Core element categories) -/

inductive Kind where
  | title | creator | subject | description | publisher | contributor
  | date | type | format | identifier | source | language | relation
  | coverage | rights
deriving DecidableEq

def Kind.all : List Kind :=
  [.title, .creator, .subject, .description, .publisher, .contributor,
   .date, .type, .format, .identifier, .source, .language, .relation,
   .coverage, .rights]

def Kind.name : Kind → String
  | .title => "title"
  | .creator => "creator"
  | .subject => "subject"
  | .description => "description"
  | .publisher => "publisher"
  | .contributor => "contributor"
  | .date => "date"
  | .type => "type"
  | .format => "format"
  | .identifier => "identifier"
  | .source => "source"
  | .language => "language"
  | .relation => "relation"
  | .coverage => "coverage"
  | .rights => "rights"

/-- The allow-listed field set of each kind's element model. -/
def Kind.fields : Kind → List String
  | .title => ["value", "type", "language"]
  | .creator => ["name", "type", "affiliation", "orcid", "role"]
  | .subject => ["value", "scheme", "uri", "note"]
  | .description => ["value", "type", "language"]
  | .publisher => ["name", "type", "location", "website", "role"]
  | .contributor => ["name", "type", "role", "affiliation"]
  | .date => ["value", "type", "scheme", "note"]
  | .type => ["value", "scheme", "uri"]
  | .format => ["value", "type", "scheme"]
  | .identifier => ["value", "type", "scheme", "note"]
  | .source => ["value", "type", "identifier"]
  | .language => ["value", "scheme", "name", "note"]
  | .relation => ["value", "type", "description"]
  | .coverage => ["value", "type", "scheme", "coordinates", "description"]
  | .rights => ["value", "type", "uri", "description", "note"]

/-- The kind's instance parser, with the parsed value erased (only
success/failure matters when quantifying over kinds). -/
def Kind.parseInstance : Kind → Yaml → Except String Unit
  | .title, v => (parseTitleElement v).map fun _ => ()
  | .creator, v => (parseCreatorElement v).map fun _ => ()
  | .subject, v => (parseSubjectElement v).map fun _ => ()
  | .description, v => (parseDescriptionElement v).map fun _ => ()
  | .publisher, v => (parsePublisherElement v).map fun _ => ()
  | .contributor, v => (parseContributorElement v).map fun _ => ()
  | .date, v => (parseDateElement v).map fun _ => ()
  | .type, v => (parseTypeElement v).map fun _ => ()
  | .format, v => (parseFormatElement v).map fun _ => ()
  | .identifier, v => (parseIdentifierElement v).map fun _ => ()
  | .source, v => (parseSourceElement v).map fun _ => ()
  | .language, v => (parseLanguageElement v).map fun _ => ()
  | .relation, v => (parseRelationElement v).map fun _ => ()
  | .coverage, v => (parseCoverageElement v).map fun _ => ()
  | .rights, v => (parseRightsElement v).map fun _ => ()

/-- Length of the kind's instance list in a parsed `DublinCore`, absent kind
mapping to `none`. -/
def DublinCore.kindLen (dc : DublinCore) : Kind → Option Nat
  | .title => dc.title.map List.length
  | .creator => dc.creator.map List.length
  | .subject => dc.subject.map List.length
  | .description => dc.description.map List.length
  | .publisher => dc.publisher.map List.length
  | .contributor => dc.contributor.map List.length
  | .date => dc.date.map List.length
  | .type => dc.type.map List.length
  | .format => dc.format.map List.length
  | .identifier => dc.identifier.map List.length
  | .source => dc.source.map List.length
  | .language => dc.language.map List.length
  | .relation => dc.relation.map List.length
  | .coverage => dc.coverage.map List.length
  | .rights => dc.rights.map List.length

/-- Lookup in an `element_counts` association list. -/
def countLookup (counts : List (String × Nat)) (k : String) : Option Nat :=
  match counts with
  | [] => none
  | (a, n) :: t => if a = k then some n else countLookup t k

/-! ## The CLI `example` command's document

Transcription of the YAML literal emitted by `cli.py example`
(`example_yaml`, cli.py lines 391–511), as `yaml.safe_load` parses it.
Note it populates 13 of the 15 element kinds: `source` and `relation` are
absent. -/

def exampleDublinCoreMap : List (String × Yaml) :=
  [("title", .list
     [.map [("value", .s "Sample Research Dataset: Climate Change Impact on Coastal Ecosystems"),
            ("type", .s "main"), ("language", .s "en")],
      .map [("value", .s "Impacto del Cambio Climático en Ecosistemas Costeros: Conjunto de Datos de Investigación"),
            ("type", .s "translated"), ("language", .s "es")]]),
   ("creator", .list
     [.map [("name", .s "Dr. Jane Smith"), ("type", .s "personal"),
            ("orcid", .s "0000-0002-1825-0097"),
            ("affiliation", .s "University of Marine Sciences"),
            ("role", .s "principal investigator")],
      .map [("name", .s "Dr. Robert Johnson"), ("type", .s "personal"),
            ("affiliation", .s "Coastal Research Institute"),
            ("role", .s "co-investigator")]]),
   ("subject", .list
     [.map [("value", .s "Climate change"), ("scheme", .s "LCSH")],
      .map [("value", .s "Coastal ecology"), ("scheme", .s "LCSH")],
      .map [("value", .s "Marine biology"), ("scheme", .s "LCSH")],
      .map [("value", .s "Environmental monitoring"), ("scheme", .s "keyword")]]),
   ("description", .list
     [.map [("value", .s "This dataset contains comprehensive measurements of coastal ecosystem parameters collected over a 5-year period to assess climate change impacts. Includes water temperature, salinity, pH levels, species abundance, and biodiversity indices from 15 monitoring stations along the Pacific coast."),
            ("type", .s "abstract"), ("language", .s "en")]]),
   ("publisher", .list
     [.map [("name", .s "University of Marine Sciences Data Repository"),
            ("type", .s "university"), ("location", .s "California, USA"),
            ("website", .s "https://data.umarine.edu")]]),
   ("contributor", .list
     [.map [("name", .s "Marine Data Consortium"), ("type", .s "corporate"),
            ("role", .s "data collector")],
      .map [("name", .s "Dr. Maria Garcia"), ("type", .s "personal"),
            ("role", .s "data analyst")]]),
   ("date", .list
     [.map [("value", .s "2024-01-15"), ("type", .s "created"), ("scheme", .s "W3CDTF")],
      .map [("value", .s "2024-02-01"), ("type", .s "available"), ("scheme", .s "W3CDTF")],
      .map [("value", .s "2019/2023"), ("type", .s "temporal_coverage"), ("scheme", .s "W3CDTF")]]),
   ("type", .list
     [.map [("value", .s "Dataset"), ("scheme", .s "DCMI Type Vocabulary")]]),
   ("format", .list
     [.map [("value", .s "text/csv"), ("type", .s "media_type"), ("scheme", .s "IMT")],
      .map [("value", .s "2.5 GB"), ("type", .s "file_size")]]),
   ("identifier", .list
     [.map [("value", .s "https://doi.org/10.5555/example.dataset.2024"),
            ("type", .s "DOI"), ("scheme", .s "URI")],
      .map [("value", .s "UMDS-2024-001"), ("type", .s "local")]]),
   ("language", .list
     [.map [("value", .s "en"), ("scheme", .s "ISO 639-1"), ("name", .s "English")]]),
   ("coverage", .list
     [.map [("value", .s "Pacific Coast, California, USA"), ("type", .s "spatial"),
            ("scheme", .s "TGN"),
            ("coordinates", .s "lat: 32.7157-37.8044, lon: -117.1611--122.4194")],
      .map [("value", .s "2019-01-01/2023-12-31"), ("type", .s "temporal"),
            ("scheme", .s "W3CDTF")]]),
   ("rights", .list
     [.map [("value", .s "Creative Commons Attribution 4.0 International License"),
            ("type", .s "license"),
            ("uri", .s "https://creativecommons.org/licenses/by/4.0/")]])]

def exampleCliTree : Yaml :=
  .map
    [("dublin_core", .map exampleDublinCoreMap),
     ("additional_metadata", .map
       [("funding", .list
          [.map [("agency", .s "National Science Foundation"),
                 ("grant_number", .s "OCE-1234567"), ("country", .s "US")],
           .map [("agency", .s "California Ocean Protection Council"),
                 ("grant_number", .s "OPC-ENV-2019-05"), ("country", .s "US")]]),
        ("quality", .map
          [("peer_review", .b true), ("review_type", .s "double-blind")]),
        ("technical", .map
          [("creation_software", .s "R 4.3.0, Python 3.9"),
           ("data_analysis_software", .s "R packages: tidyverse, vegan, ggplot2")])]),
     ("metadata_record", .map
       [("created_date", .s "2024-01-15T10:30:00Z"),
        ("created_by", .s "Dr. Jane Smith"),
        ("record_identifier", .s "UMDS-META-2024-001"),
        ("schema_version", .s "Dublin Core 1.1 Extended"),
        ("encoding", .s "UTF-8")])]

/-! ## Infrastructure lemmas about the `Except`-based parsers -/

/-- Whether a parse outcome is a failure. -/
def exIsError : Except ε α → Bool
  | .error _ => true
  | .ok _ => false

theorem exIsError_iff {x : Except ε α} : exIsError x = true ↔ ∃ e, x = .error e := by
  cases x <;> simp [exIsError]

theorem bind_error_left {m : Except ε α} {k : α → Except ε β} {e : ε}
    (h : m = .error e) : m.bind k = .error e := by
  subst h; rfl

theorem bind_isError_left {m : Except ε α} {k : α → Except ε β}
    (h : exIsError m = true) : exIsError (m.bind k) = true := by
  obtain ⟨e, he⟩ := exIsError_iff.mp h
  rw [bind_error_left he]; rfl

theorem bind_isError_all {m : Except ε α} {k : α → Except ε β}
    (h : ∀ a, exIsError (k a) = true) : exIsError (m.bind k) = true := by
  cases m with
  | error e => rfl
  | ok a => exact h a

theorem bind_ok_inv {m : Except ε α} {k : α → Except ε β} {b : β}
    (h : m.bind k = .ok b) : ∃ a, m = .ok a ∧ k a = .ok b := by
  cases m with
  | error e => exact absurd h (by simp [Except.bind])
  | ok a => exact ⟨a, rfl, h⟩

theorem map_isError {m : Except ε α} {f : α → β} :
    exIsError (m.map f) = exIsError m := by
  cases m <;> rfl

theorem parseEach_isError_of_mem {p : Yaml → Except String α} {x : Yaml}
    {xs : List Yaml} (hx : x ∈ xs) (h : exIsError (p x) = true) :
    exIsError (parseEach p xs) = true := by
  induction xs with
  | nil => cases hx
  | cons a t ih =>
    rw [parseEach]
    rcases List.mem_cons.mp hx with h1 | h2
    · subst h1
      obtain ⟨e, he⟩ := exIsError_iff.mp h
      rw [bind_error_left he]; rfl
    · apply bind_isError_all; intro y
      apply bind_isError_left (ih h2)

theorem optList_isError {kvs : List (String × Yaml)} {fieldName : String}
    {p : Yaml → Except String α} {xs : List Yaml} {x : Yaml}
    (hl : yLookup kvs fieldName = some (.list xs)) (hx : x ∈ xs)
    (h : exIsError (p x) = true) :
    exIsError (optList kvs fieldName p) = true := by
  rw [optList, hl]
  show exIsError ((parseEach p xs).map some) = true
  rw [map_isError]
  exact parseEach_isError_of_mem hx h

/-- A present key outside the allow-list falsifies the closed-schema check. -/
theorem extraOk_eq_false {allowed : List String} {kvs : List (String × Yaml)}
    {f : String} (hmem : f ∈ kvs.map Prod.fst) (hout : f ∉ allowed) :
    extraOk allowed kvs = false := by
  obtain ⟨⟨a, v⟩, hin, rfl⟩ := List.mem_map.mp hmem
  rw [extraOk]
  refine List.all_eq_false.mpr ⟨(a, v), hin, ?_⟩
  simpa using hout

/-- ASCII digits are Unicode decimal digits (`0030–0039` is an Nd range). -/
theorem pyIsDigit_of_isDigit {c : Char} (h : c.isDigit = true) : pyIsDigit c = true := by
  simp only [Char.isDigit, Bool.and_eq_true, decide_eq_true_eq, ge_iff_le] at h
  have h1 : 48 ≤ c.toNat := UInt32.le_toNat_of_le (by decide) h.1
  have h2 : c.toNat ≤ 57 := UInt32.toNat_le_of_le (by decide) h.2
  rw [pyIsDigit]
  refine List.any_eq_true.mpr ⟨(0x30, 0x39), by simp [ndRanges], ?_⟩
  simp only [Bool.and_eq_true, decide_eq_true_eq]
  exact ⟨h1, h2⟩

/-- A run of digits in a smaller digit class is a run in a larger one. -/
theorem takeDigitsWith_mono {d1 d2 : Char → Bool}
    (hd : ∀ c, d1 c = true → d2 c = true) :
    ∀ {n : Nat} {cs r : List Char},
      takeDigitsWith d1 n cs = some r → takeDigitsWith d2 n cs = some r := by
  intro n
  induction n with
  | zero => intro cs r h; exact h
  | succ n ih =>
    intro cs r h
    cases cs with
    | nil => exact absurd h (by simp [takeDigitsWith])
    | cons c cs =>
      rw [takeDigitsWith] at h
      by_cases hc : d1 c = true
      · rw [if_pos hc] at h
        rw [takeDigitsWith, if_pos (hd c hc)]
        exact ih h
      · rw [if_neg hc] at h
        exact absurd h (by simp)

/-- The ORCID pattern body is monotone in the digit class. -/
theorem orcidBodyWith_mono {d1 d2 : Char → Bool}
    (hd : ∀ c, d1 c = true → d2 c = true) {cs : List Char}
    (h : orcidBodyWith d1 cs = true) : orcidBodyWith d2 cs = true := by
  rw [orcidBodyWith] at h ⊢
  cases hE : expectLit "0000-000".data cs with
  | none => rw [hE] at h; exact absurd h (by simp)
  | some r =>
    rw [hE] at h
    cases r with
    | nil => exact absurd h (by simp)
    | cons c r =>
      simp only [Bool.and_eq_true] at h ⊢
      refine ⟨h.1, ?_⟩
      have htail := h.2
      cases h1 : expectChar '-' r with
      | none => rw [h1] at htail; exact absurd htail (by simp)
      | some r1 =>
        rw [h1] at htail
        simp only [Option.some_bind] at htail ⊢
        cases h2 : takeDigitsWith d1 4 r1 with
        | none => rw [h2] at htail; exact absurd htail (by simp)
        | some r2 =>
          rw [h2] at htail
          rw [takeDigitsWith_mono hd h2]
          simp only [Option.some_bind] at htail ⊢
          cases h3 : expectChar '-' r2 with
          | none => rw [h3] at htail; exact absurd htail (by simp)
          | some r3 =>
            rw [h3] at htail
            simp only [Option.some_bind] at htail ⊢
            cases h4 : takeDigitsWith d1 3 r3 with
            | none => rw [h4] at htail; exact absurd htail (by simp)
            | some r4 =>
              rw [h4] at htail
              rw [takeDigitsWith_mono hd h4]
              cases r4 with
              | nil => exact absurd htail (by simp)
              | cons d t =>
                cases t with
                | cons x xs => exact absurd htail (by simp)
                | nil =>
                  simp only [Bool.or_eq_true] at htail ⊢
                  rcases htail with hdig | hX
                  · exact Or.inl (hd d hdig)
                  · exact Or.inr hX

/-- A document whose `dublin_core` block has no `title` key fails the
`validate_required_elements` root validator (or an earlier field check). -/
theorem parseDublinCore_isError_of_no_title {dckvs : List (String × Yaml)}
    (hT : yLookup dckvs "title" = none) :
    exIsError (parseDublinCore dckvs) = true := by
  rw [parseDublinCore]
  cases hE : extraOk dublinCoreFields dckvs with
  | false => rfl
  | true =>
    simp only [Bool.not_true, Bool.false_eq_true, if_false]
    have hTitle : optList dckvs "title" parseTitleElement = .ok none := by
      rw [optList, hT]
    rw [hTitle]
    simp only [Except.bind]
    apply bind_isError_all; intro creator
    apply bind_isError_all; intro subject
    apply bind_isError_all; intro description
    apply bind_isError_all; intro publisher
    apply bind_isError_all; intro contributor
    apply bind_isError_all; intro date
    apply bind_isError_all; intro type
    apply bind_isError_all; intro format
    apply bind_isError_all; intro identifier
    apply bind_isError_all; intro source
    apply bind_isError_all; intro language
    apply bind_isError_all; intro relation
    apply bind_isError_all; intro coverage
    apply bind_isError_all; intro rights
    rfl

/-- A document whose `dublin_core` block has no `identifier` key fails the
`validate_required_elements` root validator (or an earlier field check). -/
theorem parseDublinCore_isError_of_no_identifier {dckvs : List (String × Yaml)}
    (hI : yLookup dckvs "identifier" = none) :
    exIsError (parseDublinCore dckvs) = true := by
  rw [parseDublinCore]
  cases hE : extraOk dublinCoreFields dckvs with
  | false => rfl
  | true =>
    simp only [Bool.not_true, Bool.false_eq_true, if_false]
    apply bind_isError_all; intro title
    apply bind_isError_all; intro creator
    apply bind_isError_all; intro subject
    apply bind_isError_all; intro description
    apply bind_isError_all; intro publisher
    apply bind_isError_all; intro contributor
    apply bind_isError_all; intro date
    apply bind_isError_all; intro type
    apply bind_isError_all; intro format
    have hIdent : optList dckvs "identifier" parseIdentifierElement = .ok none := by
      rw [optList, hI]
    rw [hIdent]
    simp only [Except.bind]
    apply bind_isError_all; intro source
    apply bind_isError_all; intro language
    apply bind_isError_all; intro relation
    apply bind_isError_all; intro coverage
    apply bind_isError_all; intro rights
    cases hc : (title.getD []).isEmpty <;> simp [hc, exIsError]

/-- If any instance of any kind fails its element parser, the whole
`DublinCore` parse fails. -/
theorem parseDublinCore_isError_of_bad_instance {dckvs : List (String × Yaml)}
    {k : Kind} {xs : List Yaml} {x : Yaml}
    (hl : yLookup dckvs k.name = some (.list xs)) (hx : x ∈ xs)
    (hInst : exIsError (k.parseInstance x) = true) :
    exIsError (parseDublinCore dckvs) = true := by
  rw [parseDublinCore]
  cases hE : extraOk dublinCoreFields dckvs with
  | false => rfl
  | true =>
    simp only [Bool.not_true, Bool.false_eq_true, if_false]
    cases k <;>
      simp only [Kind.name] at hl <;>
      simp only [Kind.parseInstance, map_isError] at hInst <;>
      repeat
        first
        | exact bind_isError_left (optList_isError hl hx hInst)
        | (apply bind_isError_all; intro a)

/-- Lift a failing `dublin_core` block to a failing document parse. -/
theorem parseDoc_isError_of_dc_error {kvs mkvs : List (String × Yaml)}
    (hlook : yLookup kvs "dublin_core" = some (.map mkvs))
    (h : exIsError (parseDublinCore mkvs) = true) :
    exIsError (parseDublinCoreDocument kvs) = true := by
  rw [parseDublinCoreDocument]
  cases hE : extraOk ["dublin_core", "additional_metadata", "metadata_record"] kvs with
  | false => rfl
  | true =>
    simp only [Bool.not_true, Bool.false_eq_true, if_false]
    apply bind_isError_left
    rw [reqDublinCoreField, hlook]
    exact h

/-- A failing document parse surfaces through the pipeline as a `FAILED`
report with `error_type = "ValueError"` (`validate_document` re-raises the
pydantic `ValidationError` as `ValueError`). -/
theorem pipeline_failed_of_parseDoc_error {kvs : List (String × Yaml)}
    {p : String} {n : Nat} {m : String}
    (h : parseDublinCoreDocument kvs = .error m) :
    validate_dublin_core_yaml (.parsed p n (.map kvs))
      = .failed ("Validation failed: " ++ m) "ValueError" := by
  show validation_decorator validate_dublin_core_yaml_inner _ = _
  rw [validation_decorator, validate_dublin_core_yaml_inner]
  show (match (validate_document (.map kvs)).bind _ with
        | .ok r => r
        | .error e => Report.failed e.msg e.ty) = _
  rw [validate_document, h]
  rfl

/-- Inversion of a `PASSED` outcome: the report was built by
`create_validation_report` from a document whose `dublin_core` block passed
`parseDublinCore`. -/
theorem pipeline_passed_inv {inp : SourceInput} {r : SuccessReport}
    {fp : String} {n : Nat}
    (h : validate_dublin_core_yaml inp = .passed r fp n) :
    ∃ doc : DublinCoreDocument, r = create_validation_report doc ∧
      ∃ dckvs, parseDublinCore dckvs = .ok doc.dublin_core := by
  rw [show validate_dublin_core_yaml inp
        = validation_decorator validate_dublin_core_yaml_inner inp from rfl,
      validation_decorator] at h
  cases hI : validate_dublin_core_yaml_inner inp with
  | error e => rw [hI] at h; exact absurd h (by simp)
  | ok rep =>
    rw [hI] at h
    rw [validate_dublin_core_yaml_inner] at hI
    obtain ⟨data, hL, h2⟩ := bind_ok_inv hI
    obtain ⟨doc, hV, h3⟩ := bind_ok_inv h2
    have hrep : rep = .passed (create_validation_report doc) inp.path inp.sizeBytes := by
      simpa using h3.symm
    subst hrep
    have hr : r = create_validation_report doc := by
      simp only [Report.passed.injEq] at h
      exact h.1.symm
    refine ⟨doc, hr, ?_⟩
    cases data with
    | map kvs =>
      rw [validate_document] at hV
      cases hP : parseDublinCoreDocument kvs with
      | error m => rw [hP] at hV; exact absurd hV (by simp)
      | ok d =>
        rw [hP] at hV
        have hd : d = doc := by simpa using hV
        subst hd
        rw [parseDublinCoreDocument] at hP
        cases hE : extraOk ["dublin_core", "additional_metadata", "metadata_record"] kvs with
        | false => rw [hE] at hP; exact absurd hP (by simp [exIsError])
        | true =>
          rw [hE] at hP
          simp only [Bool.not_true, Bool.false_eq_true, if_false] at hP
          obtain ⟨dcv, hDC, hP2⟩ := bind_ok_inv hP
          obtain ⟨am, hAM, hP3⟩ := bind_ok_inv hP2
          obtain ⟨mr, hMR, hP4⟩ := bind_ok_inv hP3
          have hdoc : d = ⟨dcv, am, mr⟩ := by simpa using hP4.symm
          rw [reqDublinCoreField] at hDC
          cases hlk : yLookup kvs "dublin_core" with
          | none => rw [hlk] at hDC; exact absurd hDC (by simp)
          | some v =>
            rw [hlk] at hDC
            cases v with
            | map dckvs =>
              refine ⟨dckvs, ?_⟩
              rw [hdoc]
              exact hDC
            | s v => exact absurd hDC (by simp)
            | i v => exact absurd hDC (by simp)
            | b v => exact absurd hDC (by simp)
            | nullV => exact absurd hDC (by simp)
            | list xs => exact absurd hDC (by simp)
    | s v => exact absurd hV (by simp [validate_document])
    | i v => exact absurd hV (by simp [validate_document])
    | b v => exact absurd hV (by simp [validate_document])
    | nullV => exact absurd hV (by simp [validate_document])
    | list xs => exact absurd hV (by simp [validate_document])

/-- Inversion of a successful `DublinCore` parse: the root validator
guarantees non-empty title and identifier lists. -/
theorem parseDublinCore_ok_title_identifier {dckvs : List (String × Yaml)}
    {dc : DublinCore} (h : parseDublinCore dckvs = .ok dc) :
    1 ≤ (dc.title.getD []).length ∧ 1 ≤ (dc.identifier.getD []).length := by
  rw [parseDublinCore] at h
  cases hE : extraOk dublinCoreFields dckvs with
  | false => rw [hE] at h; exact absurd h (by simp)
  | true =>
    rw [hE] at h
    simp only [Bool.not_true, Bool.false_eq_true, if_false] at h
    obtain ⟨title, h1, h⟩ := bind_ok_inv h
    obtain ⟨creator, h2, h⟩ := bind_ok_inv h
    obtain ⟨subject, h3, h⟩ := bind_ok_inv h
    obtain ⟨description, h4, h⟩ := bind_ok_inv h
    obtain ⟨publisher, h5, h⟩ := bind_ok_inv h
    obtain ⟨contributor, h6, h⟩ := bind_ok_inv h
    obtain ⟨date, h7, h⟩ := bind_ok_inv h
    obtain ⟨type, h8, h⟩ := bind_ok_inv h
    obtain ⟨format, h9, h⟩ := bind_ok_inv h
    obtain ⟨identifier, h10, h⟩ := bind_ok_inv h
    obtain ⟨source, h11, h⟩ := bind_ok_inv h
    obtain ⟨language, h12, h⟩ := bind_ok_inv h
    obtain ⟨relation, h13, h⟩ := bind_ok_inv h
    obtain ⟨coverage, h14, h⟩ := bind_ok_inv h
    obtain ⟨rights, h15, h⟩ := bind_ok_inv h
    cases hc1 : (title.getD []).isEmpty with
    | true => rw [hc1] at h; exact absurd h (by simp)
    | false =>
      rw [hc1] at h
      simp only [Bool.false_eq_true, if_false] at h
      cases hc2 : (identifier.getD []).isEmpty with
      | true => rw [hc2] at h; exact absurd h (by simp)
      | false =>
        rw [hc2] at h
        simp only [Bool.false_eq_true, if_false, Except.ok.injEq] at h
        subst h
        constructor
        · cases hl : title.getD [] with
          | nil => rw [hl] at hc1; exact absurd hc1 (by simp)
          | cons a t => simp
        · cases hl : identifier.getD [] with
          | nil => rw [hl] at hc2; exact absurd hc2 (by simp)
          | cons a t => simp

/-- A successful document parse surfaces through the pipeline as a `PASSED`
report. -/
theorem pipeline_passed_of_parseDoc_ok {kvs : List (String × Yaml)}
    {p : String} {n : Nat} {d : DublinCoreDocument}
    (h : parseDublinCoreDocument kvs = .ok d) :
    validate_dublin_core_yaml (.parsed p n (.map kvs))
      = .passed (create_validation_report d) p n := by
  show validation_decorator validate_dublin_core_yaml_inner _ = _
  rw [validation_decorator, validate_dublin_core_yaml_inner]
  show (match (validate_document (.map kvs)).bind _ with
        | .ok r => r
        | .error e => Report.failed e.msg e.ty) = _
  rw [validate_document, h]
  rfl

/-! ## Claim theorems -/

/-- C2: for every input, `validate_dublin_core_yaml` returns a report whose
`validation_status` is `'PASSED'` or `'FAILED'` and never raises past its
boundary: any exception raised inside the parse/validate/report pipeline is
caught once by `validation_decorator` and converted into a Failure report
carrying the exception's class name (`error_type`) and message (`error`). -/
theorem pipeline_error_boundary (inp : SourceInput) :
    ((validate_dublin_core_yaml inp).validation_status = "PASSED" ∨
     (validate_dublin_core_yaml inp).validation_status = "FAILED") ∧
    (∀ e, validate_dublin_core_yaml_inner inp = .error e →
       validate_dublin_core_yaml inp = .failed e.msg e.ty) ∧
    (∀ rep, validate_dublin_core_yaml_inner inp = .ok rep →
       validate_dublin_core_yaml inp = rep) := by
  have hund : validate_dublin_core_yaml inp
      = match validate_dublin_core_yaml_inner inp with
        | .ok r => r
        | .error e => .failed e.msg e.ty := rfl
  refine ⟨?_, fun e he => ?_, fun rep hrep => ?_⟩
  · rw [hund]
    cases hI : validate_dublin_core_yaml_inner inp with
    | error e => right; rfl
    | ok rep =>
      cases rep with
      | passed r fp n => left; rfl
      | failed m t => right; rfl
  · rw [hund, he]
  · rw [hund, hrep]

/-- Witness for C2 at a concrete erroring input. -/
theorem pipeline_error_boundary_witness :
    validate_dublin_core_yaml_inner (.ioMissing "missing.yaml")
        = .error ⟨"ValueError", "File not found: missing.yaml"⟩ ∧
    validate_dublin_core_yaml (.ioMissing "missing.yaml")
        = .failed "File not found: missing.yaml" "ValueError" :=
  ⟨rfl,
   (pipeline_error_boundary (.ioMissing "missing.yaml")).2.1
     ⟨"ValueError", "File not found: missing.yaml"⟩ rfl⟩

/-- C7: every `PASSED` report satisfies
`completeness_percentage = (populated_elements / 15) * 100` exactly (in exact
rational arithmetic), where `populated_elements` counts the element kinds
with at least one instance, and is at most 15. -/
theorem passed_completeness_formula {inp : SourceInput} {r : SuccessReport}
    {fp : String} {n : Nat}
    (h : validate_dublin_core_yaml inp = .passed r fp n) :
    r.completeness_percentage = ((r.populated_elements : ℚ) / 15) * 100 ∧
    r.populated_elements
      = (r.element_counts.map Prod.snd).countP (fun c => decide (0 < c)) ∧
    r.populated_elements ≤ 15 := by
  obtain ⟨doc, hr, -⟩ := pipeline_passed_inv h
  subst hr
  refine ⟨rfl, rfl, ?_⟩
  have h2 := List.countP_le_length (fun c => decide (0 < c))
    (l := (create_validation_report doc).element_counts.map Prod.snd)
  exact le_of_le_of_eq h2 (by rfl)

/-- Witness for C7 at a concrete passing input. -/
theorem passed_completeness_formula_witness :
    (2 : ℚ) / 15 * 100 = ((2 : ℚ) / 15) * 100 ∧
    validate_dublin_core_yaml (.parsed "m.yaml" 5 (.map [("dublin_core", .map
      [("title", .list [.map [("value", .s "T")]]),
       ("identifier", .list [.map [("value", .s "X")]])])]))
      = .passed ⟨2, 2, (2 : ℚ) / 15 * 100,
          [("title", 1), ("creator", 0), ("subject", 0), ("description", 0),
           ("publisher", 0), ("contributor", 0), ("date", 0), ("type", 0),
           ("format", 0), ("identifier", 1), ("source", 0), ("language", 0),
           ("relation", 0), ("coverage", 0), ("rights", 0)], false, false⟩
          "m.yaml" 5 ∧
    ((2 : Nat) = ([1, 0, 0, 0, 0, 0, 0, 0, 0, 1, 0, 0, 0, 0, 0] :
        List Nat).countP (fun c => decide (0 < c)) ∧ (2 : Nat) ≤ 15) := by
  refine ⟨rfl, rfl, ?_⟩
  have h := passed_completeness_formula
    (show validate_dublin_core_yaml (.parsed "m.yaml" 5 (.map [("dublin_core", .map
        [("title", .list [.map [("value", .s "T")]]),
         ("identifier", .list [.map [("value", .s "X")]])])]))
      = .passed ⟨2, 2, (2 : ℚ) / 15 * 100,
          [("title", 1), ("creator", 0), ("subject", 0), ("description", 0),
           ("publisher", 0), ("contributor", 0), ("date", 0), ("type", 0),
           ("format", 0), ("identifier", 1), ("source", 0), ("language", 0),
           ("relation", 0), ("coverage", 0), ("rights", 0)], false, false⟩
          "m.yaml" 5 from rfl)
  exact ⟨h.2.1, h.2.2⟩

/-- C10: every `PASSED` report shows at least one title and one identifier
instance; hence at least 2 populated kinds, at least 2 total instances, and
completeness at least `(2/15)*100`. -/
theorem passed_has_title_and_identifier {inp : SourceInput} {r : SuccessReport}
    {fp : String} {n : Nat}
    (h : validate_dublin_core_yaml inp = .passed r fp n) :
    (∃ t, countLookup r.element_counts "title" = some t ∧ 1 ≤ t) ∧
    (∃ i, countLookup r.element_counts "identifier" = some i ∧ 1 ≤ i) ∧
    2 ≤ r.populated_elements ∧ 2 ≤ r.total_elements ∧
    ((2 : ℚ) / 15) * 100 ≤ r.completeness_percentage := by
  obtain ⟨doc, hr, dckvs, hok⟩ := pipeline_passed_inv h
  obtain ⟨ht, hi⟩ := parseDublinCore_ok_title_identifier hok
  subst hr
  have hlt : countLookup (create_validation_report doc).element_counts "title"
      = some (doc.dublin_core.title.getD []).length := rfl
  have hli : countLookup (create_validation_report doc).element_counts "identifier"
      = some (doc.dublin_core.identifier.getD []).length := rfl
  have hpop : 2 ≤ (create_validation_report doc).populated_elements := by
    show 2 ≤ List.countP _ _
    simp only [List.map_cons, List.map_nil, List.countP_cons, List.countP_nil,
      decide_eq_true_eq]
    have e1 : (0 < (doc.dublin_core.title.getD []).length) := ht
    have e2 : (0 < (doc.dublin_core.identifier.getD []).length) := hi
    rw [if_pos e1, if_pos e2]
    omega
  refine ⟨⟨_, hlt, ht⟩, ⟨_, hli, hi⟩, hpop, ?_, ?_⟩
  · show 2 ≤ List.sum _
    simp only [List.map_cons, List.map_nil, List.sum_cons, List.sum_nil]
    omega
  · show ((2 : ℚ) / 15) * 100 ≤ ((create_validation_report doc).populated_elements : ℚ) / 15 * 100
    have hq : (2 : ℚ) ≤ ((create_validation_report doc).populated_elements : ℚ) := by
      exact_mod_cast hpop
    have h15 : (0 : ℚ) < 15 := by norm_num
    gcongr

/-- Witness for C10 at a concrete passing input. -/
theorem passed_has_title_and_identifier_witness :
    (∃ t, countLookup [("title", (1 : Nat)), ("creator", 0), ("subject", 0),
        ("description", 0), ("publisher", 0), ("contributor", 0), ("date", 0),
        ("type", 0), ("format", 0), ("identifier", 1), ("source", 0),
        ("language", 0), ("relation", 0), ("coverage", 0), ("rights", 0)]
        "title" = some t ∧ 1 ≤ t) ∧
    (∃ i, countLookup [("title", (1 : Nat)), ("creator", 0), ("subject", 0),
        ("description", 0), ("publisher", 0), ("contributor", 0), ("date", 0),
        ("type", 0), ("format", 0), ("identifier", 1), ("source", 0),
        ("language", 0), ("relation", 0), ("coverage", 0), ("rights", 0)]
        "identifier" = some i ∧ 1 ≤ i) ∧
    2 ≤ (2 : Nat) ∧ 2 ≤ (2 : Nat) ∧
    ((2 : ℚ) / 15) * 100 ≤ (2 : ℚ) / 15 * 100 := by
  have h := passed_has_title_and_identifier
    (show validate_dublin_core_yaml (.parsed "w10.yaml" 7 (.map [("dublin_core", .map
        [("title", .list [.map [("value", .s "Tw")]]),
         ("identifier", .list [.map [("value", .s "Xw")]])])]))
      = .passed ⟨2, 2, (2 : ℚ) / 15 * 100,
          [("title", 1), ("creator", 0), ("subject", 0), ("description", 0),
           ("publisher", 0), ("contributor", 0), ("date", 0), ("type", 0),
           ("format", 0), ("identifier", 1), ("source", 0), ("language", 0),
           ("relation", 0), ("coverage", 0), ("rights", 0)], false, false⟩
          "w10.yaml" 7 from rfl)
  exact h

/-- C1 counterexample: the taxonomy names are not what `error_type` carries.
A document missing Title fails with `error_type = "ValueError"`, not
`"SchemaError"`; a missing file gives `"ValueError"`, not `"IOError"`; and
malformed YAML gives `"ValueError"`, not `"SyntaxError"`. -/
theorem error_type_taxonomy_counterexample :
    Report.errorTy (validate_dublin_core_yaml (.parsed "doc.yaml" 64 (.map
        [("dublin_core", .map [("identifier", .list [.map [("value", .s "X")]])])])))
      = some "ValueError" ∧
    some "ValueError" ≠ some "SchemaError" ∧
    Report.errorTy (validate_dublin_core_yaml (.ioMissing "gone.yaml")) = some "ValueError" ∧
    some "ValueError" ≠ some "IOError" ∧
    Report.errorTy (validate_dublin_core_yaml
        (.syntaxBad "bad.yaml" "mapping values are not allowed here"))
      = some "ValueError" ∧
    some "ValueError" ≠ some "SyntaxError" := by
  exact ⟨rfl, by decide, rfl, by decide, rfl, by decide⟩

/-- C1 (amended): `error_type` is the raising exception's *class name*.  The
three taxonomy situations all surface as `"ValueError"` — `load_yaml_file`
re-raises `FileNotFoundError` and `yaml.YAMLError` as `ValueError` and
`validate_document` re-raises pydantic's `ValidationError` as `ValueError` —
while an unreadable file's original exception (e.g. `PermissionError`)
propagates with its own class name.  Documents missing Title or Identifier
yield a Failure whose `error_type` is `"ValueError"`. -/
theorem error_type_is_exception_class :
    (∀ p, validate_dublin_core_yaml (.ioMissing p)
        = .failed ("File not found: " ++ p) "ValueError") ∧
    (∀ p ty m, validate_dublin_core_yaml (.ioUnreadable p ty m) = .failed m ty) ∧
    (∀ p m, validate_dublin_core_yaml (.syntaxBad p m)
        = .failed ("Invalid YAML format: " ++ m) "ValueError") ∧
    (∀ (p : String) (n : Nat) (kvs : List (String × Yaml)) (msg ty : String),
        validate_dublin_core_yaml (.parsed p n (.map kvs)) = .failed msg ty →
        ty = "ValueError") ∧
    (∀ (p : String) (n : Nat) (kvs mkvs : List (String × Yaml)),
        yLookup kvs "dublin_core" = some (.map mkvs) →
        yLookup mkvs "title" = none →
        ∃ msg, validate_dublin_core_yaml (.parsed p n (.map kvs))
          = .failed msg "ValueError") ∧
    (∀ (p : String) (n : Nat) (kvs mkvs : List (String × Yaml)),
        yLookup kvs "dublin_core" = some (.map mkvs) →
        yLookup mkvs "identifier" = none →
        ∃ msg, validate_dublin_core_yaml (.parsed p n (.map kvs))
          = .failed msg "ValueError") := by
  refine ⟨fun p => rfl, fun p ty m => rfl, fun p m => rfl,
    fun p n kvs msg ty h => ?_, fun p n kvs mkvs h1 h2 => ?_,
    fun p n kvs mkvs h1 h2 => ?_⟩
  · cases hP : parseDublinCoreDocument kvs with
    | error m =>
      rw [pipeline_failed_of_parseDoc_error hP] at h
      have := (Report.failed.injEq _ _ _ _).mp h
      exact this.2.symm
    | ok d =>
      rw [pipeline_passed_of_parseDoc_ok hP] at h
      exact absurd h (by simp)
  · have hdc := parseDublinCore_isError_of_no_title h2
    have hdoc := parseDoc_isError_of_dc_error h1 hdc
    obtain ⟨m, hm⟩ := exIsError_iff.mp hdoc
    exact ⟨_, pipeline_failed_of_parseDoc_error hm⟩
  · have hdc := parseDublinCore_isError_of_no_identifier h2
    have hdoc := parseDoc_isError_of_dc_error h1 hdc
    obtain ⟨m, hm⟩ := exIsError_iff.mp hdoc
    exact ⟨_, pipeline_failed_of_parseDoc_error hm⟩

/-- Witness for C1 at concrete inputs. -/
theorem error_type_is_exception_class_witness :
    validate_dublin_core_yaml (.ioMissing "w1gone.yaml")
      = .failed "File not found: w1gone.yaml" "ValueError" ∧
    (∃ msg, validate_dublin_core_yaml (.parsed "w1.yaml" 11 (.map
        [("dublin_core", .map [("identifier", .list [.map [("value", .s "W")]])])]))
      = .failed msg "ValueError") ∧
    (∃ msg, validate_dublin_core_yaml (.parsed "w1b.yaml" 12 (.map
        [("dublin_core", .map [("title", .list [.map [("value", .s "W")]])])]))
      = .failed msg "ValueError") := by
  refine ⟨error_type_is_exception_class.1 "w1gone.yaml", ?_, ?_⟩
  · exact error_type_is_exception_class.2.2.2.2.1 "w1.yaml" 11 _ _ rfl rfl
  · exact error_type_is_exception_class.2.2.2.2.2 "w1b.yaml" 12 _ _ rfl rfl

/-- C3 counterexample: the instance `{value: "2024-13-40", scheme: "W3CDTF"}`
*passes* element-level validation (the claim says it fails), and the
ISO-8601-like validator itself accepts `"2024-13-40"` (the pattern checks
digit shape only). -/
theorem date_w3cdtf_counterexample :
    parseDateElement (.map [("value", .s "2024-13-40"), ("scheme", .s "W3CDTF")])
      = .ok ⟨"2024-13-40", none, some "W3CDTF", none⟩ ∧
    validate_iso8601_date "2024-13-40" = true := ⟨rfl, rfl⟩

/-- C3 (amended): the W3CDTF cross-field check can never fire, because the
`value` validator runs before `scheme` is validated (pydantic v1 passes only
previously declared fields in `values`), so *every* non-empty `value` is
accepted with `scheme: "W3CDTF"`; independently, `validate_iso8601_date` is
shape-only and accepts `"2024-13-40"`.  Both cited instances pass the
element-level check. -/
theorem date_w3cdtf_check_dead (v : String) (hlen : 1 ≤ v.length) :
    parseDateElement (.map [("value", .s v), ("scheme", .s "W3CDTF")])
      = .ok ⟨v, none, some "W3CDTF", none⟩ ∧
    DateElement.validate_date_format v none = .ok v ∧
    validate_iso8601_date "2024-13-40" = true ∧
    parseDateElement (.map [("value", .s "2024-13-40"), ("scheme", .s "local")])
      = .ok ⟨"2024-13-40", none, some "local", none⟩ := by
  have hreq : reqStr [("value", Yaml.s v), ("scheme", Yaml.s "W3CDTF")] "value" 1 none
      = if v.length < 1 then
          .error ("value" ++ ": ensure this value has at least " ++ toString 1 ++ " characters")
        else .ok v := rfl
  have hstep : parseDateElement (.map [("value", .s v), ("scheme", .s "W3CDTF")])
      = (reqStr [("value", Yaml.s v), ("scheme", Yaml.s "W3CDTF")] "value" 1 none).bind
          fun value => .ok ⟨value, none, some "W3CDTF", none⟩ := rfl
  refine ⟨?_, rfl, rfl, rfl⟩
  rw [hstep, hreq, if_neg (by omega)]
  rfl

/-- Witness for C3 at the cited concrete instance. -/
theorem date_w3cdtf_check_dead_witness :
    parseDateElement (.map [("value", .s "2024-13-40"), ("scheme", .s "W3CDTF")])
      = .ok ⟨"2024-13-40", none, some "W3CDTF", none⟩ ∧
    DateElement.validate_date_format "2024-13-40" none = .ok "2024-13-40" ∧
    validate_iso8601_date "2024-13-40" = true ∧
    parseDateElement (.map [("value", .s "2024-13-40"), ("scheme", .s "local")])
      = .ok ⟨"2024-13-40", none, some "local", none⟩ :=
  date_w3cdtf_check_dead "2024-13-40" (by decide)

/-- C4 (code-bug evidence): `validate_doi` rejects `"not-a-doi"`, and the
validator body `validate_identifier_format` would reject it when handed
`type = "DOI"` — but the element parser accepts the instance and the whole
document validates to `PASSED`, because pydantic v1 hands the `value`
validator an empty `values` (the `type` field is declared after `value`),
so the DOI/ISBN/ISSN dispatch is dead code. -/
theorem identifier_doi_dispatch_dead :
    validate_doi "not-a-doi" = false ∧
    IdentifierElement.validate_identifier_format "not-a-doi" (some "DOI")
      = .error "Invalid DOI format" ∧
    parseIdentifierElement (.map [("value", .s "not-a-doi"), ("type", .s "DOI")])
      = .ok ⟨"not-a-doi", some "DOI", none, none⟩ ∧
    validate_dublin_core_yaml (.parsed "doi.yaml" 99 (.map [("dublin_core", .map
        [("title", .list [.map [("value", .s "T")]]),
         ("identifier", .list [.map [("value", .s "not-a-doi"), ("type", .s "DOI")]])])]))
      = .passed ⟨2, 2, (2 : ℚ) / 15 * 100,
          [("title", 1), ("creator", 0), ("subject", 0), ("description", 0),
           ("publisher", 0), ("contributor", 0), ("date", 0), ("type", 0),
           ("format", 0), ("identifier", 1), ("source", 0), ("language", 0),
           ("relation", 0), ("coverage", 0), ("rights", 0)], false, false⟩
          "doi.yaml" 99 := by
  exact ⟨rfl, rfl, rfl, rfl⟩

set_option maxRecDepth 400000 in
/-- C5 counterexample: the CLI example document does *not* populate 15 kinds
with 100% completeness — it populates 13 (no `source`, no `relation`), with
completeness `(13/15)*100 = 260/3 ≈ 86.67`. -/
theorem example_not_complete_counterexample :
    (Report.success (validate_dublin_core_yaml
        (.parsed "example.yaml" 2697 exampleCliTree))).map
      SuccessReport.populated_elements = some 13 ∧
    some (13 : Nat) ≠ some 15 ∧
    (Report.success (validate_dublin_core_yaml
        (.parsed "example.yaml" 2697 exampleCliTree))).map
      SuccessReport.completeness_percentage = some ((13 : ℚ) / 15 * 100) ∧
    (13 : ℚ) / 15 * 100 ≠ 100 := by
  exact ⟨rfl, by decide, rfl, by norm_num⟩

set_option maxRecDepth 400000 in
/-- C5 (amended): the CLI example document validates to Success with
`populated_elements = 13` (the `source` and `relation` kinds are absent),
`total_elements = 24`, completeness `(13/15)*100`, and both optional
side-records present. -/
theorem example_validates_thirteen_of_fifteen :
    validate_dublin_core_yaml (.parsed "example.yaml" 2697 exampleCliTree)
      = .passed ⟨24, 13, (13 : ℚ) / 15 * 100,
          [("title", 2), ("creator", 2), ("subject", 4), ("description", 1),
           ("publisher", 1), ("contributor", 2), ("date", 3), ("type", 1),
           ("format", 2), ("identifier", 2), ("source", 0), ("language", 1),
           ("relation", 0), ("coverage", 2), ("rights", 1)],
          true, true⟩ "example.yaml" 2697 := by
  rfl

/-- C6: an unknown field on an instance of any of the 15 element kinds makes
the instance parser fail, and any document containing such an instance fails
validation (closed-schema rejection). -/
theorem closed_schema_rejection (k : Kind) (ekvs : List (String × Yaml))
    (f : String) (hmem : f ∈ ekvs.map Prod.fst) (hout : f ∉ k.fields) :
    exIsError (k.parseInstance (.map ekvs)) = true ∧
    (∀ (kvs mkvs : List (String × Yaml)) (xs : List Yaml) (p : String) (n : Nat),
      yLookup kvs "dublin_core" = some (.map mkvs) →
      yLookup mkvs k.name = some (.list xs) →
      Yaml.map ekvs ∈ xs →
      ∃ msg, validate_dublin_core_yaml (.parsed p n (.map kvs))
        = .failed msg "ValueError") := by
  have hInst : exIsError (k.parseInstance (.map ekvs)) = true := by
    have hE := extraOk_eq_false hmem hout
    cases k <;>
      simp only [Kind.fields] at hE <;>
      simp [Kind.parseInstance, map_isError, parseTitleElement, parseCreatorElement,
        parseSubjectElement, parseDescriptionElement, parsePublisherElement,
        parseContributorElement, parseDateElement, parseTypeElement,
        parseFormatElement, parseIdentifierElement, parseSourceElement,
        parseLanguageElement, parseRelationElement, parseCoverageElement,
        parseRightsElement, Except.map, hE, exIsError]
  refine ⟨hInst, fun kvs mkvs xs p n h1 h2 h3 => ?_⟩
  have hdc := parseDublinCore_isError_of_bad_instance h2 h3 hInst
  have hdoc := parseDoc_isError_of_dc_error h1 hdc
  obtain ⟨m, hm⟩ := exIsError_iff.mp hdoc
  exact ⟨_, pipeline_failed_of_parseDoc_error hm⟩

/-- Witness for C6: a `subject` instance with the extra key `wild_key`. -/
theorem closed_schema_rejection_witness :
    exIsError (Kind.parseInstance .subject
      (.map [("value", .s "x"), ("wild_key", .s "y")])) = true ∧
    (∃ msg, validate_dublin_core_yaml (.parsed "w6.yaml" 21 (.map [("dublin_core", .map
        [("title", .list [.map [("value", .s "T")]]),
         ("identifier", .list [.map [("value", .s "I")]]),
         ("subject", .list [.map [("value", .s "x"), ("wild_key", .s "y")]])])]))
      = .failed msg "ValueError") := by
  have h := closed_schema_rejection .subject [("value", .s "x"), ("wild_key", .s "y")]
    "wild_key" (by simp) (by decide)
  exact ⟨h.1, h.2 _ _ _ "w6.yaml" 21 rfl rfl (List.mem_singleton.mpr rfl)⟩

/-- The document with every element kind absent. -/
def emptyDublinCoreDocument : DublinCoreDocument :=
  ⟨⟨none, none, none, none, none, none, none, none, none, none, none, none,
    none, none, none⟩, none, none⟩

/-- C8: every report's `element_counts` lists exactly the 15 kind names (in
order) as keys; an absent kind is reported with count 0; and on the
all-absent document the report has all 15 keys at 0, `populated_elements =
0` and `completeness_percentage = 0`.  (Counts are `Nat`, hence
non-negative.) -/
theorem report_counts_all_kinds :
    (∀ doc : DublinCoreDocument,
       (create_validation_report doc).element_counts.map Prod.fst = dublinCoreFields) ∧
    (∀ (doc : DublinCoreDocument) (k : Kind), doc.dublin_core.kindLen k = none →
       countLookup (create_validation_report doc).element_counts k.name = some 0) ∧
    create_validation_report emptyDublinCoreDocument
      = ⟨0, 0, 0, dublinCoreFields.map (fun s => (s, 0)), false, false⟩ := by
  refine ⟨fun doc => rfl, fun doc k hk => ?_, ?_⟩
  · cases k <;>
      simp only [DublinCore.kindLen, Option.map_eq_none'] at hk <;>
      simp [create_validation_report, countLookup, Kind.name, hk]
  · have h0 : create_validation_report emptyDublinCoreDocument
        = ⟨0, 0, ((0 : ℕ) : ℚ) / 15 * 100,
           dublinCoreFields.map (fun s => (s, 0)), false, false⟩ := rfl
    rw [h0]
    simp only [SuccessReport.mk.injEq]
    norm_num

/-- Witness for C8 at the all-absent document and kind `source`. -/
theorem report_counts_all_kinds_witness :
    (create_validation_report emptyDublinCoreDocument).element_counts.map Prod.fst
      = dublinCoreFields ∧
    countLookup (create_validation_report emptyDublinCoreDocument).element_counts
      "source" = some 0 := by
  refine ⟨report_counts_all_kinds.1 emptyDublinCoreDocument, ?_⟩
  exact report_counts_all_kinds.2.1 emptyDublinCoreDocument .source rfl

/-- C9 counterexample: `validate_orcid` does not accept *exactly* the
strings of shape `0000-000[1-3]-DDDD-DDD[0-9X]`.  It also accepts (a) the
shape followed by one trailing newline (Python `$` of `re.match`), and
(b) the pattern with non-ASCII Unicode decimal digits — here Arabic-Indic
`١٨٢٥` in the `\d{4}` segment — since Python `\d` without `re.ASCII`
matches every Nd digit. -/
theorem orcid_not_exactly_shape_counterexample :
    validate_orcid "0000-0002-1825-0097\n" = true ∧
    orcidSpecShape "0000-0002-1825-0097\n" = false ∧
    validate_orcid "0000-0002-١٨٢٥-0097" = true ∧
    orcidSpecShape "0000-0002-١٨٢٥-0097" = false := ⟨rfl, rfl, rfl, rfl⟩

/-- C9 (amended): `validate_orcid` accepts exactly the strings matching
`0000-000[1-3]-\d{4}-\d{3}[\dX]` with `\d` = any Unicode decimal digit
(category Nd), optionally followed by one trailing newline; every string of
the claimed ASCII shape is accepted (ASCII digits are Nd digits), and the
two cited examples behave as claimed, including the narrowed `[1-3]` middle
segment. -/
theorem validate_orcid_exact_shape (s : String) :
    (validate_orcid s = true ↔
      (orcidNdShape s = true ∨
        (s.data.getLast? = some '\n' ∧ orcidBody s.data.dropLast = true))) ∧
    (orcidSpecShape s = true → validate_orcid s = true) ∧
    validate_orcid "0000-0002-1825-0097" = true ∧
    validate_orcid "0000-0004-1825-0097" = false := by
  refine ⟨?_, fun h => ?_, rfl, rfl⟩
  · rw [validate_orcid, pyAnchored, orcidNdShape]
    cases hL : s.data.getLast? with
    | none => simp
    | some c => simp [Bool.or_eq_true, Bool.and_eq_true, decide_eq_true_eq]
  · have hnd : orcidBody s.data = true :=
      orcidBodyWith_mono (fun c hc => pyIsDigit_of_isDigit hc)
        (by rw [orcidSpecShape] at h; exact h)
    rw [validate_orcid, pyAnchored, hnd]
    rfl

/-- Witness for C9 at a concrete string of the claimed ASCII shape. -/
theorem validate_orcid_exact_shape_witness :
    validate_orcid "0000-0001-0000-000X" = true :=
  (validate_orcid_exact_shape "0000-0001-0000-000X").2.1 rfl

end DCV
